import Mathlib

/-!
# H5Easy: the writer (`WriteH5`) and the reader (`LoadH5`) over the HDF5 C++ API

The two classes of `H5Easy.h` are embedded as programs that issue calls to the HDF5
library.  The library is not part of the repository: it is a parameter (`Library σ`,
any state type, any behaviour), and `Hdf5` further down is a reference model of the
documented behaviour of the real library, used where a claim speaks of what ends up in
the file.

Machine-level data:
* an object in memory is a list of bytes (`Nat`, each below 256);
* an `int`, `float` or `double` value is the bit pattern of its object representation
  (`Nat` below `2 ^ 32` resp. `2 ^ 64`); `std::vector<int>` results are given as `Int`;
* `uint`/`int` counters are reduced modulo `2 ^ 32` where the source narrows.
-/

namespace H5Easy

/-! ## Data model -/

/-- The exception classes of the HDF5 C++ API that the library can throw. -/
inductive H5Exception
  | FileIException
  | GroupIException
  | DataSetIException
  | DataSpaceIException
  | DataTypeIException
  deriving DecidableEq, Repr

/-- Everything that can leave a function of the wrapper through a C++ `throw`. -/
inductive Thrown
  | h5 (e : H5Exception)
  | bad_array_new_length
  deriving DecidableEq, Repr

/-- File access flags: `H5F_ACC_RDONLY`, `H5F_ACC_RDWR`, `H5F_ACC_TRUNC`. -/
inductive AccFlag
  | H5F_ACC_RDONLY
  | H5F_ACC_RDWR
  | H5F_ACC_TRUNC
  deriving DecidableEq, Repr

/-- An atomic HDF5 datatype: class (`H5T_class_t`, 0 = `H5T_INTEGER`, 1 = `H5T_FLOAT`),
element size in bytes, byte order (`H5T_order_t`, 0 = `H5T_ORDER_LE`, 1 = `H5T_ORDER_BE`)
and, for integers, whether the type is signed (two's complement). -/
structure PredType where
  cls : Int
  size : Nat
  order : Int
  sign : Bool
  deriving DecidableEq, Repr

def PredType.STD_I8LE : PredType := ⟨0, 1, 0, true⟩
def PredType.STD_I16LE : PredType := ⟨0, 2, 0, true⟩
def PredType.STD_I32LE : PredType := ⟨0, 4, 0, true⟩
def PredType.STD_I64LE : PredType := ⟨0, 8, 0, true⟩
def PredType.STD_I8BE : PredType := ⟨0, 1, 1, true⟩
def PredType.STD_I16BE : PredType := ⟨0, 2, 1, true⟩
def PredType.STD_I32BE : PredType := ⟨0, 4, 1, true⟩
def PredType.STD_I64BE : PredType := ⟨0, 8, 1, true⟩
def PredType.STD_U32LE : PredType := ⟨0, 4, 0, false⟩
def PredType.IEEE_F32LE : PredType := ⟨1, 4, 0, true⟩
def PredType.IEEE_F64LE : PredType := ⟨1, 8, 0, true⟩
def PredType.IEEE_F32BE : PredType := ⟨1, 4, 1, true⟩
def PredType.IEEE_F64BE : PredType := ⟨1, 8, 1, true⟩

/-- What the reader learns from an opened dataset: the results of
`getDataType().getClass()`, `getIntType()/getFloatType()` with `getSize()` and
`getOrder(order_string)`, and `getSpace().getSimpleExtentNpoints()` (an `hssize_t`). -/
structure DataSetInfo where
  cls : Int
  size : Nat
  order : Int
  order_string : String
  npoints : Int
  deriving DecidableEq, Repr

/-- The HDF5 objects the wrapper closes explicitly. -/
inductive Handle
  | file
  | group
  | dataset
  | dataspace
  | datatype
  deriving DecidableEq, Repr

/-- A call into the library, as it appears in the trace of a run. -/
inductive Call
  | H5File (name : String) (flags : AccFlag)
  | DataSpace (rank : Nat) (dims : Nat)
  | createDataSet (file name : String) (ftype : PredType) (dims : Nat)
  | write (file name : String) (buf : List Nat) (mtype : PredType)
  | createGroup (file name : String)
  | openDataSet (file name : String)
  | read (file name : String) (mtype : PredType)
  | close (h : Handle)
  deriving DecidableEq, Repr

/-- The HDF5 library as the wrapper sees it: every call takes the library state and gives
a result or an exception, and the next state.  Nothing is assumed about it. -/
structure Library (σ : Type) where
  H5File : String → AccFlag → σ → Except H5Exception Unit × σ
  DataSpace : Nat → Nat → σ → Except H5Exception Unit × σ
  createDataSet : String → String → PredType → Nat → σ → Except H5Exception Unit × σ
  write : String → String → List Nat → PredType → σ → Except H5Exception Unit × σ
  createGroup : String → String → σ → Except H5Exception Unit × σ
  openDataSet : String → String → σ → Except H5Exception DataSetInfo × σ
  read : String → String → PredType → σ → Except H5Exception (List Nat) × σ
  close : Handle → σ → Except H5Exception Unit × σ

/-- The process environment: byte order of the host, the contents of freshly allocated
(uninitialised) memory by byte offset, and the addresses of the two string literals that
`getDatadouble` compares a pointer with. -/
structure Env where
  bigEndian : Bool
  heap : Nat → Nat
  litLittle : Nat
  litBig : Nat

/-- How a run of a wrapper function ends. -/
inductive Res (α : Type)
  | returned (a : α)
  | thrown (t : Thrown)
  | exited (status : Nat)
  | undefinedBehaviour
  deriving DecidableEq, Repr

/-- The observable world of a run: library state, lines on standard output, exceptions
printed with `printError`, and the trace of library calls with the exception each threw. -/
structure World (σ : Type) where
  lib : σ
  out : List String
  err : List H5Exception
  trace : List (Call × Option H5Exception)

def World.start {σ : Type} (s : σ) : World σ := ⟨s, [], [], []⟩

/-- A wrapper program. -/
def Prog (σ α : Type) : Type := World σ → Res α × World σ

def Prog.pure {σ α : Type} (a : α) : Prog σ α := fun w => (.returned a, w)

def Prog.bind {σ α β : Type} (m : Prog σ α) (f : α → Prog σ β) : Prog σ β := fun w =>
  match m w with
  | (.returned a, w1) => f a w1
  | (.thrown t, w1) => (.thrown t, w1)
  | (.exited n, w1) => (.exited n, w1)
  | (.undefinedBehaviour, w1) => (.undefinedBehaviour, w1)

instance {σ : Type} : Monad (Prog σ) where
  pure := Prog.pure
  bind := Prog.bind

/-- Writes a line to standard output: `std::cout << line << std::endl`. -/
def cout {σ : Type} (line : String) : Prog σ Unit := fun w =>
  (.returned (), { w with out := w.out ++ [line] })

/-- Terminates the process: `exit(status)`. -/
def exit {σ α : Type} (status : Nat) : Prog σ α := fun w => (.exited status, w)

/-- A library call: the call and the exception it threw (if any) go to the trace. -/
def call {σ α : Type} (c : Call) (f : σ → Except H5Exception α × σ) : Prog σ α := fun w =>
  match f w.lib with
  | (.ok a, s) => (.returned a, { w with lib := s, trace := w.trace ++ [(c, none)] })
  | (.error e, s) => (.thrown (.h5 e), { w with lib := s, trace := w.trace ++ [(c, some e)] })

/-- The handler `catch (E error) { error.printError(); }`. -/
def printError {σ : Type} (e : H5Exception) : Prog σ Unit := fun w =>
  (.returned (), { w with err := w.err ++ [e] })

namespace Library

variable {σ : Type} (L : Library σ)

def doH5File (name : String) (flags : AccFlag) : Prog σ Unit :=
  call (.H5File name flags) (L.H5File name flags)

def doDataSpace (rank dims : Nat) : Prog σ Unit :=
  call (.DataSpace rank dims) (L.DataSpace rank dims)

def doCreateDataSet (file name : String) (ftype : PredType) (dims : Nat) : Prog σ Unit :=
  call (.createDataSet file name ftype dims) (L.createDataSet file name ftype dims)

def doWrite (file name : String) (buf : List Nat) (mtype : PredType) : Prog σ Unit :=
  call (.write file name buf mtype) (L.write file name buf mtype)

def doCreateGroup (file name : String) : Prog σ Unit :=
  call (.createGroup file name) (L.createGroup file name)

def doOpenDataSet (file name : String) : Prog σ DataSetInfo :=
  call (.openDataSet file name) (L.openDataSet file name)

def doRead (file name : String) (mtype : PredType) : Prog σ (List Nat) :=
  call (.read file name mtype) (L.read file name mtype)

def doClose (h : Handle) : Prog σ Unit :=
  call (.close h) (L.close h)

end Library

/-! ## Object representations -/

/-- The `n` bytes of the bit pattern `v`, least significant byte first. -/
def leBytes : Nat → Nat → List Nat
  | 0, _ => []
  | n + 1, v => v % 256 :: leBytes n (v / 256)

/-- The bit pattern of a little-endian byte sequence. -/
def leValue : List Nat → Nat
  | [] => 0
  | b :: bs => b % 256 + 256 * leValue bs

/-- Object representation of the bit pattern `v` in `n` bytes of host memory. -/
def hostBytes (env : Env) (n v : Nat) : List Nat :=
  if env.bigEndian then (leBytes n v).reverse else leBytes n v

/-- The bit pattern the host reads from an object of the given bytes. -/
def hostValue (env : Env) (bs : List Nat) : Nat :=
  if env.bigEndian then leValue bs.reverse else leValue bs

/-- The value of a 32-bit two's complement bit pattern. -/
def toInt32 (v : Int) : Int :=
  if v % 4294967296 < 2147483648 then v % 4294967296 else v % 4294967296 - 4294967296

/-- The bit pattern of an `int`. -/
def ofInt32 (x : Int) : Nat := (x % 4294967296).toNat

/-- The result of `new T[npts]` for element size `size`: `size * npts` bytes of
uninitialised memory. -/
def freshArray (env : Env) (size npts : Nat) : List Nat :=
  (List.range (size * npts)).map (fun i => env.heap i % 256)

/-- The elements `data[0..npts)` of a buffer, each of `size` bytes: what
`std::vector<T> v(data, data + npts)` copies. -/
def elements (env : Env) (size : Nat) (data : List Nat) : Nat → List Nat
  | 0 => []
  | npts + 1 => hostValue env (data.take size) :: elements env size (data.drop size) npts

/-! ## WriteH5 -/

/-- The element types `writeData<T>` is instantiated with, as told apart by `typeid`. -/
inductive CType
  | int
  | uint
  | float
  | double
  | other (size : Nat)
  deriving DecidableEq, Repr

def CType.sizeof : CType → Nat
  | .int => 4
  | .uint => 4
  | .float => 4
  | .double => 8
  | .other size => size

structure WriteH5 where
  varName : String
  filename : String
  deriving DecidableEq, Repr

def WriteH5.setFileName (self : WriteH5) (name : String) : WriteH5 := { self with filename := name }

def WriteH5.setVarName (self : WriteH5) (name : String) : WriteH5 := { self with varName := name }

/-- The body of the `try` block of `writeData` (lines 119-159): one attempt to open the
file and to create and write the dataset. -/
def WriteH5.writeAttempt {σ : Type} (L : Library σ) (self : WriteH5) (T : CType)
    (a : List Nat) (npts : Nat) : Prog σ Unit := do
  L.doH5File self.filename .H5F_ACC_RDWR
  L.doDataSpace 1 npts
  match T with
  | .int => do
    L.doCreateDataSet self.filename self.varName PredType.STD_I32LE npts
    L.doWrite self.filename self.varName a PredType.STD_I32BE
    L.doClose .dataset
  | .uint => do
    L.doCreateDataSet self.filename self.varName PredType.STD_U32LE npts
    L.doWrite self.filename self.varName a PredType.STD_U32LE
    L.doClose .dataset
  | .float => do
    L.doCreateDataSet self.filename self.varName PredType.IEEE_F32LE npts
    L.doWrite self.filename self.varName a PredType.IEEE_F32LE
    L.doClose .dataset
  | .double => do
    L.doCreateDataSet self.filename self.varName PredType.IEEE_F64LE npts
    L.doWrite self.filename self.varName a PredType.IEEE_F64LE
    L.doClose .dataset
  | .other _ => do
    cout "Unknown data type! EXITING"
    exit 1
  L.doClose .dataspace
  L.doClose .file

/-- The handler of `writeData` up to the counter (lines 165-166): create the file anew. -/
def WriteH5.recreate {σ : Type} (L : Library σ) (self : WriteH5) : Prog σ Unit := do
  L.doH5File self.filename .H5F_ACC_TRUNC
  L.doClose .file

/-- The `while (true)` loop of `writeData` (lines 114-178) entered with the counter `itr`.
A successful attempt leaves the loop; a `FileIException` from anywhere in the attempt
recreates the file, increments `itr` and, unless `itr > 3`, tries again; any other
exception, and any exception thrown by the handler itself, leaves the function.  The
counter starts at 0 and the loop ends once it exceeds 3, so the `uint` does not wrap. -/
def WriteH5.writeLoop {σ : Type} (L : Library σ) (self : WriteH5) (T : CType)
    (a : List Nat) (npts : Nat) (itr : Nat) : Prog σ Unit := fun w =>
  match self.writeAttempt L T a npts w with
  | (.thrown (.h5 .FileIException), w1) =>
    match self.recreate L w1 with
    | (.returned _, w2) =>
      if itr + 1 > 3 then
        cout "We've tried too many times in the Int writing sequence" w2
      else
        WriteH5.writeLoop L self T a npts (itr + 1) w2
    | r => r
  | r => r
termination_by 4 - itr
decreasing_by omega

/-- Lines 92-179, `WriteH5::writeData<T>(data)`: the elements of `data` are given as bit patterns of
`sizeof(T)` bytes.  `uint npts = data.size()` narrows the size to 32 bits; the array `a`
holds the first `npts` elements in host representation. -/
def WriteH5.writeData {σ : Type} (L : Library σ) (env : Env) (self : WriteH5) (T : CType)
    (data : List Nat) : Prog σ Unit :=
  let npts := data.length % 4294967296
  let a := ((data.take npts).map (hostBytes env T.sizeof)).flatten
  self.writeLoop L T a npts 0

/-- The tokens pushed by `while (std::getline(ss, token, '/'))` (lines 186-190), reading
the stream character by character with `tok` the characters extracted for the current
token: a `'/'` ends the token (also an empty one); at the end of the stream a token is
produced only when characters were extracted for it. -/
def getlines : List Char → List Char → List (List Char)
  | tok, [] => if tok = [] then [] else [tok]
  | tok, c :: cs => if c = '/' then tok :: getlines [] cs else getlines (tok ++ [c]) cs

/-- The `for` loop of `createGroup` (lines 192-203) over the remaining sections, with the
current value of `mygroup`. -/
def WriteH5.createGroupLoop {σ : Type} (L : Library σ) (self : WriteH5) :
    List (List Char) → List Char → Prog σ Unit
  | [], _ => pure ()
  | section_i :: rest, mygroup => do
    let mygroup := (mygroup ++ ['/']) ++ section_i
    if mygroup ≠ ['/'] then
      L.doH5File self.filename .H5F_ACC_RDWR
      L.doCreateGroup self.filename (String.mk mygroup)
      L.doClose .group
      L.doClose .file
    WriteH5.createGroupLoop L self rest mygroup

/-- Lines 181-213, `WriteH5::createGroup(groupName)`: the whole loop is inside one `try`; a
`FileIException` or `GroupIException` from any call ends it and is printed. -/
def WriteH5.createGroup {σ : Type} (L : Library σ) (self : WriteH5) (groupName : String) :
    Prog σ Unit := fun w =>
  match self.createGroupLoop L (getlines [] groupName.toList) [] w with
  | (.thrown (.h5 .FileIException), w1) => printError .FileIException w1
  | (.thrown (.h5 .GroupIException), w1) => printError .GroupIException w1
  | r => r

/-! ## LoadH5 -/

structure LoadH5 where
  varName : String
  filename : String
  deriving DecidableEq, Repr

def LoadH5.setFileName (self : LoadH5) (name : String) : LoadH5 := { self with filename := name }

def LoadH5.setVarName (self : LoadH5) (name : String) : LoadH5 := { self with varName := name }

/-- The expression `new T[npts]` with `npts` an `int`: a negative length throws
`std::bad_array_new_length`. -/
def newArray {σ : Type} (env : Env) (size : Nat) (npts : Int) : Prog σ (List Nat) := fun w =>
  if npts < 0 then (.thrown .bad_array_new_length, w)
  else (.returned (freshArray env size npts.toNat), w)

/-- The call `dataset.read(data, mtype)`: the library stores the bytes it produces at the start
of the buffer `data`; storing more bytes than the array holds is undefined behaviour. -/
def readInto {σ : Type} (L : Library σ) (file name : String) (data : List Nat)
    (mtype : PredType) : Prog σ (List Nat) := do
  let bytes ← L.doRead file name mtype
  if bytes.length ≤ data.length then
    pure (bytes ++ data.drop bytes.length)
  else
    fun w => (.undefinedBehaviour, w)

/-- The pointer `(char*)order` of an `H5T_order_t` value on a 64-bit machine. -/
def ptrOfOrder (order : Int) : Nat := (order % 18446744073709551616).toNat

/-- The `try` block of `getDataint` (lines 226-271). -/
def LoadH5.getDataintTry {σ : Type} (L : Library σ) (env : Env) (self : LoadH5) :
    Prog σ (List Int) := do
  L.doH5File self.filename .H5F_ACC_RDONLY
  let dataset ← L.doOpenDataSet self.filename self.varName
  let npts : Int := toInt32 dataset.npoints
  let classt := dataset.cls
  if classt ≠ 0 then
    cout (self.varName ++ " is not an int... you can't save this as an int.")
    exit 1
  let data ← newArray env 4 npts
  let order_string := dataset.order_string
  let order := dataset.order
  let size := dataset.size
  let data ←
    if (order_string = "Little endian byte ordering (0)" ∨ order = 0) ∧ size = 1 then
      readInto L self.filename self.varName data PredType.STD_I8LE
    else if (order_string = "Little endian byte order_stringing (0)" ∨ order = 0) ∧ size = 2 then
      readInto L self.filename self.varName data PredType.STD_I16LE
    else if (order_string = "Little endian byte order_stringing (0)" ∨ order = 0) ∧ size = 4 then
      readInto L self.filename self.varName data PredType.STD_I32LE
    else if (order_string = "Little endian byte order_stringing (0)" ∨ order = 0) ∧ size = 8 then
      readInto L self.filename self.varName data PredType.STD_I64LE
    else if (order_string = "Big endian byte order_stringing (1)" ∨ order = 1) ∧ size = 1 then
      readInto L self.filename self.varName data PredType.STD_I8BE
    else if (order_string = "Big endian byte order_stringing (1)" ∨ order = 1) ∧ size = 2 then
      readInto L self.filename self.varName data PredType.STD_I16BE
    else if (order_string = "Big endian byte order_stringing (1)" ∨ order = 1) ∧ size = 4 then
      readInto L self.filename self.varName data PredType.STD_I32BE
    else if (order_string = "Big endian byte order_stringing (1)" ∨ order = 1) ∧ size = 8 then
      readInto L self.filename self.varName data PredType.STD_I64BE
    else do
      cout "Did not find data type"
      pure data
  let v := (elements env 4 data npts.toNat).map (fun (bits : Nat) => toInt32 (Int.ofNat bits))
  L.doClose .dataspace
  L.doClose .datatype
  L.doClose .dataset
  L.doClose .file
  pure v

/-- The two handlers shared by the three readers: print the error and return an empty
vector. -/
def LoadH5.catchEmpty {σ α : Type} (body : Prog σ (List α)) : Prog σ (List α) := fun w =>
  match body w with
  | (.thrown (.h5 .FileIException), w1) => (printError .FileIException >>= fun _ => pure []) w1
  | (.thrown (.h5 .GroupIException), w1) => (printError .GroupIException >>= fun _ => pure []) w1
  | r => r

/-- Lines 222-285, `LoadH5::getDataint()`. -/
def LoadH5.getDataint {σ : Type} (L : Library σ) (env : Env) (self : LoadH5) :
    Prog σ (List Int) :=
  LoadH5.catchEmpty (self.getDataintTry L env)

/-- The `try` block of `getDatafloat` (lines 292-333); the elements of the result are the
bit patterns of the `float` values. -/
def LoadH5.getDatafloatTry {σ : Type} (L : Library σ) (env : Env) (self : LoadH5) :
    Prog σ (List Nat) := do
  L.doH5File self.filename .H5F_ACC_RDONLY
  let dataset ← L.doOpenDataSet self.filename self.varName
  let npts : Int := toInt32 dataset.npoints
  let classt := dataset.cls
  if classt ≠ 1 then
    cout (self.varName ++ " is not a float... you can't save this as a float.")
    exit 1
  let order_string := dataset.order_string
  let order := dataset.order
  let size := dataset.size
  let data ← newArray env 4 npts
  let data ←
    if (order_string = "Little endian byte order_stringing (0)" ∨ order = 0) ∧ size = 4 then
      readInto L self.filename self.varName data PredType.IEEE_F32LE
    else if (order_string = "Little endian byte order_stringing (0)" ∨ order = 0) ∧ size = 8 then do
      let data ← readInto L self.filename self.varName data PredType.IEEE_F64LE
      cout "NOTE: This is actually double data. We are casting to float"
      pure data
    else if (order_string = "Big endian byte order_stringing (1)" ∨ order = 1) ∧ size = 4 then
      readInto L self.filename self.varName data PredType.IEEE_F32BE
    else if (order_string = "Big endian byte order_stringing (1)" ∨ order = 1) ∧ size = 8 then do
      cout "NOTE: This is actually double data. We are casting to float"
      readInto L self.filename self.varName data PredType.IEEE_F64BE
    else do
      cout "Did not find data type"
      pure data
  let v := elements env 4 data npts.toNat
  L.doClose .dataspace
  L.doClose .datatype
  L.doClose .dataset
  L.doClose .file
  pure v

/-- Lines 288-347, `LoadH5::getDatafloat()`. -/
def LoadH5.getDatafloat {σ : Type} (L : Library σ) (env : Env) (self : LoadH5) :
    Prog σ (List Nat) :=
  LoadH5.catchEmpty (self.getDatafloatTry L env)

/-- The `try` block of `getDatadouble` (lines 354-394); the elements of the result are the
bit patterns of the `double` values.  The first and the fourth test compare the pointer
`(char*)order` with the address of a string literal. -/
def LoadH5.getDatadoubleTry {σ : Type} (L : Library σ) (env : Env) (self : LoadH5) :
    Prog σ (List Nat) := do
  L.doH5File self.filename .H5F_ACC_RDONLY
  let dataset ← L.doOpenDataSet self.filename self.varName
  let npts : Int := toInt32 dataset.npoints
  let classt := dataset.cls
  if classt ≠ 1 then
    cout (self.varName ++ " is not a float... you can't save this as a float.")
    exit 1
  let order_string := dataset.order_string
  let order := dataset.order
  let size := dataset.size
  let data ← newArray env 8 npts
  let data ←
    if ptrOfOrder order = env.litLittle ∧ size = 4 then do
      cout "NOTE: This is actually float data. We are casting to double"
      readInto L self.filename self.varName data PredType.IEEE_F32LE
    else if (order_string = "Little endian byte ordering (0)" ∨ order = 0) ∧ size = 8 then
      readInto L self.filename self.varName data PredType.IEEE_F64LE
    else if (order_string = "Big endian byte ordering (1)" ∨ order = 1) ∧ size = 4 then do
      cout "NOTE: This is actually float data. We are casting to double"
      readInto L self.filename self.varName data PredType.IEEE_F32BE
    else if ptrOfOrder order = env.litBig ∧ size = 8 then
      readInto L self.filename self.varName data PredType.IEEE_F64BE
    else do
      cout "Did not find data type"
      pure data
  let v := elements env 8 data npts.toNat
  L.doClose .dataspace
  L.doClose .datatype
  L.doClose .dataset
  L.doClose .file
  pure v

/-- Lines 350-408, `LoadH5::getDatadouble()`. -/
def LoadH5.getDatadouble {σ : Type} (L : Library σ) (env : Env) (self : LoadH5) :
    Prog σ (List Nat) :=
  LoadH5.catchEmpty (self.getDatadoubleTry L env)

/-- The conversion proxy returned by `getData()` (lines 52-72). -/
structure LoadH5.Proxy where
  myOwner : LoadH5
  deriving DecidableEq, Repr

def LoadH5.getData (self : LoadH5) : LoadH5.Proxy := ⟨self⟩

/-- The conversion `operator std::vector<int>()`. -/
def LoadH5.Proxy.toVectorInt {σ : Type} (L : Library σ) (env : Env) (p : LoadH5.Proxy) :
    Prog σ (List Int) :=
  p.myOwner.getDataint L env

/-- The conversion `operator std::vector<float>()`. -/
def LoadH5.Proxy.toVectorFloat {σ : Type} (L : Library σ) (env : Env) (p : LoadH5.Proxy) :
    Prog σ (List Nat) :=
  p.myOwner.getDatafloat L env

/-- The conversion `operator std::vector<double>()`. -/
def LoadH5.Proxy.toVectorDouble {σ : Type} (L : Library σ) (env : Env) (p : LoadH5.Proxy) :
    Prog σ (List Nat) :=
  p.myOwner.getDatadouble L env

/-! ## Reference model of the HDF5 library

The documented behaviour of the library calls the wrapper makes, on a disk of HDF5 files.
A file is a tree of groups and datasets addressed by the components of a path; a dataset
has a fixed datatype and number of elements and stores its elements in that datatype.
Member functions of `H5File` report failure with `FileIException`, dataset I/O with
`DataSetIException`.  Datatype conversion is modelled between integer types (values out
of the destination range are clamped, as the library does by default) and between
floating-point types of the same size; other conversions are reported as failures. -/

namespace Hdf5

/-- A dataset in a file: datatype, number of elements, stored bytes. -/
structure DataSet where
  dtype : PredType
  npoints : Nat
  raw : List Nat
  deriving DecidableEq, Repr

/-- An object in a file. -/
inductive Obj
  | group
  | dataset (d : DataSet)
  deriving DecidableEq, Repr

/-- The objects of a file below the root group, by path components. -/
def Image : Type := List (List Char) → Option Obj

/-- The files on disk by name. -/
def Disk : Type := String → Option Image

/-- The file created by `H5F_ACC_TRUNC`: only the root group. -/
def Image.empty : Image := fun _ => none

def Image.insert (img : Image) (p : List (List Char)) (o : Obj) : Image :=
  fun q => if q = p then some o else img q

def Disk.set (d : Disk) (file : String) (img : Image) : Disk :=
  fun f => if f = file then some img else d f

/-- The components of an HDF5 path name: the non-empty pieces between slashes, so that
`"x"`, `"/x"` and `"//x"` name the same object. -/
def components : List Char → List Char → List (List Char)
  | tok, [] => if tok = [] then [] else [tok]
  | tok, c :: cs =>
    if c = '/' then (if tok = [] then components [] cs else tok :: components [] cs)
    else components (tok ++ [c]) cs

/-- The path components a name denotes. -/
def pathOf (name : String) : List (List Char) := components [] name.toList

/-- A link can be created at `p`: it is not the root, nothing is there yet, and its parent
is the root or an existing group (intermediate groups are not created). -/
def Image.canCreate (img : Image) (p : List (List Char)) : Bool :=
  p ≠ [] && (img p).isNone && (p.dropLast = [] || img p.dropLast = some Obj.group)

/-- The text `getOrder(order_string)` stores for a byte order. -/
def orderText (order : Int) : String :=
  if order = 0 then "Little endian byte ordering (0)"
  else if order = 1 then "Big endian byte ordering (1)"
  else if order = 2 then "VAX mixed byte ordering (2)"
  else ""

/-- The bit pattern of one stored element. -/
def decode (t : PredType) (chunk : List Nat) : Nat :=
  if t.order = 1 then leValue chunk.reverse else leValue chunk

/-- The bytes of one element of type `t` with the given bit pattern. -/
def encode (t : PredType) (bits : Nat) : List Nat :=
  if t.order = 1 then (leBytes t.size bits).reverse else leBytes t.size bits

/-- The integer a bit pattern of type `t` stands for. -/
def intValue (t : PredType) (bits : Nat) : Int :=
  if t.sign ∧ 2 ^ (8 * t.size - 1) ≤ bits then (bits : Int) - 2 ^ (8 * t.size) else bits

/-- The bit pattern of type `t` for an integer, clamped to the range of `t`. -/
def intBits (t : PredType) (x : Int) : Nat :=
  let lo : Int := if t.sign then -(2 ^ (8 * t.size - 1)) else 0
  let hi : Int := if t.sign then 2 ^ (8 * t.size - 1) - 1 else 2 ^ (8 * t.size) - 1
  ((max lo (min hi x)) % 2 ^ (8 * t.size)).toNat

/-- Conversion of one element from `src` to `dst`. -/
def convertElem (src dst : PredType) (chunk : List Nat) : List Nat :=
  if src.cls = 0 then encode dst (intBits dst (intValue src (decode src chunk)))
  else encode dst (decode src chunk)

/-- Whether the model converts from `src` to `dst`. -/
def convertible (src dst : PredType) : Bool :=
  (src.order = 0 || src.order = 1) && (dst.order = 0 || dst.order = 1) &&
  0 < src.size && 0 < dst.size &&
  ((src.cls = 0 && dst.cls = 0) || (src.cls = 1 && dst.cls = 1 && src.size = dst.size))

/-- The elements of a buffer of `n` elements of `size` bytes. -/
def chunks (size : Nat) (bytes : List Nat) : Nat → List (List Nat)
  | 0 => []
  | n + 1 => bytes.take size :: chunks size (bytes.drop size) n

/-- Conversion of a buffer of `n` elements from `src` to `dst`. -/
def convert (src dst : PredType) (n : Nat) (bytes : List Nat) : Option (List Nat) :=
  if convertible src dst && bytes.length = n * src.size then
    some ((chunks src.size bytes n).map (convertElem src dst)).flatten
  else none

def H5File (name : String) (flags : AccFlag) (d : Disk) : Except H5Exception Unit × Disk :=
  match flags with
  | .H5F_ACC_TRUNC => (.ok (), d.set name Image.empty)
  | _ => if (d name).isSome then (.ok (), d) else (.error .FileIException, d)

def DataSpace (_rank _dims : Nat) (d : Disk) : Except H5Exception Unit × Disk := (.ok (), d)

def createDataSet (file name : String) (ftype : PredType) (dims : Nat) (d : Disk) :
    Except H5Exception Unit × Disk :=
  match d file with
  | none => (.error .FileIException, d)
  | some img =>
    if img.canCreate (pathOf name) then
      (.ok (), d.set file (img.insert (pathOf name)
        (.dataset ⟨ftype, dims, List.replicate (dims * ftype.size) 0⟩)))
    else (.error .FileIException, d)

def write (file name : String) (buf : List Nat) (mtype : PredType) (d : Disk) :
    Except H5Exception Unit × Disk :=
  match d file with
  | none => (.error .DataSetIException, d)
  | some img =>
    match img (pathOf name) with
    | some (.dataset ds) =>
      match convert mtype ds.dtype ds.npoints buf with
      | some raw => (.ok (), d.set file (img.insert (pathOf name) (.dataset { ds with raw := raw })))
      | none => (.error .DataSetIException, d)
    | _ => (.error .DataSetIException, d)

def createGroup (file name : String) (d : Disk) : Except H5Exception Unit × Disk :=
  match d file with
  | none => (.error .FileIException, d)
  | some img =>
    if img.canCreate (pathOf name) then
      (.ok (), d.set file (img.insert (pathOf name) .group))
    else (.error .FileIException, d)

def openDataSet (file name : String) (d : Disk) : Except H5Exception DataSetInfo × Disk :=
  match d file with
  | none => (.error .FileIException, d)
  | some img =>
    match img (pathOf name) with
    | some (.dataset ds) =>
      (.ok ⟨ds.dtype.cls, ds.dtype.size, ds.dtype.order, orderText ds.dtype.order, ds.npoints⟩, d)
    | _ => (.error .FileIException, d)

def read (file name : String) (mtype : PredType) (d : Disk) :
    Except H5Exception (List Nat) × Disk :=
  match d file with
  | none => (.error .DataSetIException, d)
  | some img =>
    match img (pathOf name) with
    | some (.dataset ds) =>
      match convert ds.dtype mtype ds.npoints ds.raw with
      | some bytes => (.ok bytes, d)
      | none => (.error .DataSetIException, d)
    | _ => (.error .DataSetIException, d)

def close (_h : Handle) (d : Disk) : Except H5Exception Unit × Disk := (.ok (), d)

/-- The reference library. -/
def library : Library Disk where
  H5File := H5File
  DataSpace := DataSpace
  createDataSet := createDataSet
  write := write
  createGroup := createGroup
  openDataSet := openDataSet
  read := read
  close := close

/-- A disk without files. -/
def Disk.none : Disk := fun _ => Option.none

end Hdf5

/-- A library on which the file never opens for writing, while every other call
succeeds: the state counts the calls made. -/
def neverOpens : Library Nat where
  H5File := fun _ flags s =>
    match flags with
    | .H5F_ACC_RDWR => (.error .FileIException, s + 1)
    | _ => (.ok (), s + 1)
  DataSpace := fun _ _ s => (.ok (), s + 1)
  createDataSet := fun _ _ _ _ s => (.ok (), s + 1)
  write := fun _ _ _ _ s => (.ok (), s + 1)
  createGroup := fun _ _ s => (.ok (), s + 1)
  openDataSet := fun _ _ s => (.ok ⟨0, 4, 0, "", 0⟩, s + 1)
  read := fun _ _ _ s => (.ok [], s + 1)
  close := fun _ s => (.ok (), s + 1)

/-! ## Observations on runs -/

/-- Number of `H5File` constructor calls with the given flags in a trace. -/
def opens (flags : AccFlag) (tr : List (Call × Option H5Exception)) : Nat :=
  tr.countP (fun c => match c.1 with
    | .H5File _ fl => fl = flags
    | _ => false)

/-- The library calls of a trace that threw. -/
def failures (tr : List (Call × Option H5Exception)) : List (Call × Option H5Exception) :=
  tr.filter (fun c => c.2.isSome)

/-- The paths of the `createGroup` requests of a trace, in order. -/
def groupRequests (tr : List (Call × Option H5Exception)) : List String :=
  tr.filterMap (fun c => match c.1 with
    | .createGroup _ name => some name
    | _ => none)

/-- The memory types of the `read` requests of a trace, in order. -/
def readRequests (tr : List (Call × Option H5Exception)) : List PredType :=
  tr.filterMap (fun c => match c.1 with
    | .read _ _ mtype => some mtype
    | _ => none)

/-- Every run of the program extends the trace by entries that satisfy `p`. -/
def Prog.Emits {σ α : Type} (p : Call × Option H5Exception → Prop) (m : Prog σ α) : Prop :=
  ∀ w, ∃ ext, (m w).2.trace = w.trace ++ ext ∧ ∀ x ∈ ext, p x

/-- A program without handlers: a library failure ends the run as the last entry of the
trace, with that exception as the result, and otherwise no call of the run failed;
undefined behaviour and `bad_array_new_length` do not occur. -/
def Prog.Linear {σ α : Type} (m : Prog σ α) : Prop :=
  ∀ w, ∃ ext, (m w).2.trace = w.trace ++ ext ∧
    (∀ e, (m w).1 = .thrown (.h5 e) → ∃ pre c, ext = pre ++ [(c, some e)] ∧ failures pre = []) ∧
    ((∀ e, (m w).1 ≠ .thrown (.h5 e)) → failures ext = []) ∧
    (m w).1 ≠ .undefinedBehaviour ∧ (m w).1 ≠ .thrown .bad_array_new_length

/-- A trace entry that is not a file open. -/
def notOpen (x : Call × Option H5Exception) : Prop :=
  ∀ name flags, x.1 ≠ Call.H5File name flags

/-- Evaluation form of `writeLoop`: the loop unrolled `fuel` times, continuing with
`writeLoop` itself after that, so that it is the same function for every `fuel`
(`writeLoop_eq_fuel`) and computes by structural recursion for the first `fuel` rounds. -/
def WriteH5.writeLoopFuel {σ : Type} (L : Library σ) (self : WriteH5) (T : CType)
    (a : List Nat) (npts : Nat) : Nat → Nat → Prog σ Unit
  | 0, itr => self.writeLoop L T a npts itr
  | fuel + 1, itr => fun w =>
    match self.writeAttempt L T a npts w with
    | (.thrown (.h5 .FileIException), w1) =>
      match self.recreate L w1 with
      | (.returned _, w2) =>
        if itr + 1 > 3 then
          cout "We've tried too many times in the Int writing sequence" w2
        else
          WriteH5.writeLoopFuel L self T a npts fuel (itr + 1) w2
      | r => r
    | r => r

/-- A little-endian host; fresh memory reads as `0xAA`. -/
def littleHost : Env := ⟨false, fun _ => 170, 4096, 8192⟩

/-- A big-endian host; fresh memory reads as `0xAA`. -/
def bigHost : Env := ⟨true, fun _ => 170, 4096, 8192⟩

/-- The string `/c_1/c_2/.../c_k` for the components `c_1, ..., c_k`. -/
def pathString (p : List (List Char)) : String :=
  String.mk (p.map (fun c => '/' :: c)).flatten

/-- The `createGroup` requests the loop of `WriteH5::createGroup` makes for the remaining
sections when no call fails: the values of `mygroup` that pass the test against `"/"`. -/
def requestsFrom : List (List Char) → List Char → List String
  | [], _ => []
  | section_i :: rest, mygroup =>
    (if (mygroup ++ ['/']) ++ section_i ≠ ['/'] then [String.mk ((mygroup ++ ['/']) ++ section_i)]
      else []) ++ requestsFrom rest ((mygroup ++ ['/']) ++ section_i)

/-- A path with each run of `'/'` characters collapsed to one. -/
def collapseSlashes : List Char → List Char
  | [] => []
  | [c] => [c]
  | c :: d :: rest =>
    if c = '/' ∧ d = '/' then collapseSlashes (d :: rest) else c :: collapseSlashes (d :: rest)

/-- A program that never calls `exit`. -/
def Prog.NoExit {σ α : Type} (m : Prog σ α) : Prop :=
  ∀ w n, (m w).1 ≠ .exited n

/-- A disk whose only file holds one dataset below the root group. -/
def Hdf5.Disk.single (file name : String) (ds : Hdf5.DataSet) : Hdf5.Disk :=
  Hdf5.Disk.none.set file (Hdf5.Image.empty.insert (Hdf5.pathOf name) (.dataset ds))

/-- The file `f.h5` with the dataset `/x` of one `IEEE_F32LE` element, `1.0f`. -/
def floatDisk : Hdf5.Disk :=
  Hdf5.Disk.single "f.h5" "/x" ⟨PredType.IEEE_F32LE, 1, [0, 0, 128, 63]⟩

/-- The file `f.h5` with the dataset `/x` of the four `STD_I8LE` elements 1, 2, 3, 4. -/
def bytesDisk : Hdf5.Disk :=
  Hdf5.Disk.single "f.h5" "/x" ⟨PredType.STD_I8LE, 4, [1, 2, 3, 4]⟩

/-- The file `f.h5` with the dataset `/x` of two little-endian 3-byte integers, 1 and 2. -/
def oddIntDisk : Hdf5.Disk :=
  Hdf5.Disk.single "f.h5" "/x" ⟨⟨0, 3, 0, true⟩, 2, [1, 0, 0, 2, 0, 0]⟩

/-- The file `f.h5` with the dataset `/x` of two 4-byte floating-point elements in VAX
byte order (`H5T_ORDER_VAX`, 2). -/
def vaxFloatDisk : Hdf5.Disk :=
  Hdf5.Disk.single "f.h5" "/x" ⟨⟨1, 4, 2, true⟩, 2, [0, 0, 128, 63, 0, 0, 0, 64]⟩

/-- The file `f.h5` with the dataset `/x` of `2 ^ 32` little-endian 3-byte integers, all 0. -/
def hugeDisk : Hdf5.Disk :=
  Hdf5.Disk.single "f.h5" "/x" ⟨⟨0, 3, 0, true⟩, 4294967296, List.replicate (4294967296 * 3) 0⟩

/-- The file `f.h5` with only the root group. -/
def emptyFileDisk : Hdf5.Disk := Hdf5.Disk.none.set "f.h5" Hdf5.Image.empty

/-- The file `f.h5` with the datasets `/x` (two `STD_I32LE` elements, 1 and 2) and `/y`
(one `STD_I32LE` element, 7). -/
def twoDisk : Hdf5.Disk :=
  Hdf5.Disk.none.set "f.h5"
    ((Hdf5.Image.empty.insert (Hdf5.pathOf "/x")
        (.dataset ⟨PredType.STD_I32LE, 2, [1, 0, 0, 0, 2, 0, 0, 0]⟩)).insert (Hdf5.pathOf "/y")
      (.dataset ⟨PredType.STD_I32LE, 1, [7, 0, 0, 0]⟩))

/-- The file `f.h5` with the group `/a`. -/
def groupDisk : Hdf5.Disk :=
  Hdf5.Disk.none.set "f.h5" (Hdf5.Image.empty.insert (Hdf5.pathOf "/a") .group)

/-- The file `f.h5` with the dataset `/x` of one `IEEE_F64LE` element, `1.0`. -/
def doubleDisk : Hdf5.Disk :=
  Hdf5.Disk.single "f.h5" "/x" ⟨PredType.IEEE_F64LE, 1, [0, 0, 0, 0, 0, 0, 240, 63]⟩

/-- The file `f.h5` with the dataset `/x` of one `STD_I64LE` element, 1. -/
def longDisk : Hdf5.Disk :=
  Hdf5.Disk.single "f.h5" "/x" ⟨PredType.STD_I64LE, 1, [1, 0, 0, 0, 0, 0, 0, 0]⟩

/-- The file `f.h5` with the dataset `/x` of `2 ^ 31` `IEEE_F32LE` elements, all `0.0f`. -/
def largeFloatDisk : Hdf5.Disk :=
  Hdf5.Disk.single "f.h5" "/x"
    ⟨PredType.IEEE_F32LE, 2147483648, List.replicate (2147483648 * 4) 0⟩

/-! ## General facts about programs -/

section lemmas

variable {σ α β : Type}

theorem bind_apply (m : Prog σ α) (f : α → Prog σ β) (w : World σ) :
    (m >>= f) w = match m w with
      | (.returned a, w1) => f a w1
      | (.thrown t, w1) => (.thrown t, w1)
      | (.exited n, w1) => (.exited n, w1)
      | (.undefinedBehaviour, w1) => (.undefinedBehaviour, w1) := rfl

theorem pure_apply (a : α) (w : World σ) : (pure a : Prog σ α) w = (.returned a, w) := rfl

theorem call_ok {c : Call} {f : σ → Except H5Exception α × σ} {w : World σ} {a : α} {s : σ}
    (h : f w.lib = (.ok a, s)) :
    call c f w = (.returned a, ⟨s, w.out, w.err, w.trace ++ [(c, none)]⟩) := by
  simp [call, h]

theorem call_error {c : Call} {f : σ → Except H5Exception α × σ} {w : World σ}
    {e : H5Exception} {s : σ} (h : f w.lib = (.error e, s)) :
    call c f w = (.thrown (.h5 e), ⟨s, w.out, w.err, w.trace ++ [(c, some e)]⟩) := by
  simp [call, h]

theorem emits_pure (p : Call × Option H5Exception → Prop) (a : α) :
    Prog.Emits p (pure a : Prog σ α) := by
  intro w; exact ⟨[], by simp [pure_apply], by simp⟩

theorem emits_bind {p : Call × Option H5Exception → Prop} {m : Prog σ α} {f : α → Prog σ β}
    (hm : Prog.Emits p m) (hf : ∀ x, Prog.Emits p (f x)) : Prog.Emits p (m >>= f) := by
  intro w
  obtain ⟨e1, h1, hp1⟩ := hm w
  rw [bind_apply]
  rcases hmw : m w with ⟨r, w1⟩
  rw [hmw] at h1
  cases r with
  | returned x =>
    obtain ⟨e2, h2, hp2⟩ := hf x w1
    refine ⟨e1 ++ e2, ?_, ?_⟩
    · simp only at h1 ⊢; rw [h2, h1, List.append_assoc]
    · intro y hy
      rcases List.mem_append.mp hy with h | h
      · exact hp1 y h
      · exact hp2 y h
  | thrown t => exact ⟨e1, h1, hp1⟩
  | exited n => exact ⟨e1, h1, hp1⟩
  | undefinedBehaviour => exact ⟨e1, h1, hp1⟩

theorem emits_call {p : Call × Option H5Exception → Prop} (c : Call)
    (f : σ → Except H5Exception α × σ) (hc : ∀ e, p (c, e)) : Prog.Emits p (call c f) := by
  intro w
  rcases h : f w.lib with ⟨r, s⟩
  cases r with
  | ok a => exact ⟨[(c, none)], by rw [call_ok h], by simpa using hc none⟩
  | error e => exact ⟨[(c, some e)], by rw [call_error h], by simpa using hc (some e)⟩

theorem emits_cout (p : Call × Option H5Exception → Prop) (line : String) :
    Prog.Emits p (cout line : Prog σ Unit) := by
  intro w; exact ⟨[], by simp [H5Easy.cout], by simp⟩

theorem emits_exit (p : Call × Option H5Exception → Prop) (n : Nat) :
    Prog.Emits p (exit n : Prog σ α) := by
  intro w; exact ⟨[], by simp [H5Easy.exit], by simp⟩

theorem emits_printError (p : Call × Option H5Exception → Prop) (e : H5Exception) :
    Prog.Emits p (printError e : Prog σ Unit) := by
  intro w; exact ⟨[], by simp [H5Easy.printError], by simp⟩

theorem opens_append (fl : AccFlag) (t1 t2 : List (Call × Option H5Exception)) :
    opens fl (t1 ++ t2) = opens fl t1 + opens fl t2 := by
  simp [opens, List.countP_append]

theorem opens_eq_zero (fl : AccFlag) (ext : List (Call × Option H5Exception))
    (h : ∀ x ∈ ext, notOpen x) : opens fl ext = 0 := by
  unfold opens
  rw [List.countP_eq_zero]
  intro x hx
  have := h x hx
  rcases x with ⟨c, e⟩
  cases c <;> simp_all [notOpen]

theorem failures_append (t1 t2 : List (Call × Option H5Exception)) :
    failures (t1 ++ t2) = failures t1 ++ failures t2 := by
  simp [failures]

end lemmas

/-! ## The writer's loop -/

section writer
variable {σ α β : Type}

theorem bind_call_ok {c : Call} {f : σ → Except H5Exception α × σ} {w : World σ} {a : α} {s : σ}
    (k : α → Prog σ β) (h : f w.lib = (.ok a, s)) :
    (call c f >>= k) w = k a ⟨s, w.out, w.err, w.trace ++ [(c, none)]⟩ := by
  rw [bind_apply, call_ok h]

theorem bind_call_error {c : Call} {f : σ → Except H5Exception α × σ} {w : World σ}
    {e : H5Exception} {s : σ} (k : α → Prog σ β) (h : f w.lib = (.error e, s)) :
    (call c f >>= k) w = (.thrown (.h5 e), ⟨s, w.out, w.err, w.trace ++ [(c, some e)]⟩) := by
  rw [bind_apply, call_error h]

theorem linear_pure (a : α) : Prog.Linear (pure a : Prog σ α) := by
  intro w
  refine ⟨[], by simp [pure_apply], ?_, ?_, ?_, ?_⟩ <;> simp [pure_apply, failures]

theorem linear_cout (line : String) : Prog.Linear (cout line : Prog σ Unit) := by
  intro w
  refine ⟨[], by simp [H5Easy.cout], ?_, ?_, ?_, ?_⟩ <;> simp [H5Easy.cout, failures]

theorem linear_exit (n : Nat) : Prog.Linear (exit n : Prog σ α) := by
  intro w
  refine ⟨[], by simp [H5Easy.exit], ?_, ?_, ?_, ?_⟩ <;> simp [H5Easy.exit, failures]

theorem linear_call (c : Call) (f : σ → Except H5Exception α × σ) : Prog.Linear (call c f) := by
  intro w
  rcases h : f w.lib with ⟨r, s⟩
  cases r with
  | ok a =>
    rw [call_ok h]
    refine ⟨[(c, none)], rfl, ?_, ?_, ?_, ?_⟩ <;> simp [failures]
  | error e =>
    rw [call_error h]
    refine ⟨[(c, some e)], rfl, ?_, ?_, ?_, ?_⟩
    · intro e2 he
      simp only [Res.thrown.injEq, Thrown.h5.injEq] at he
      subst he
      exact ⟨[], c, rfl, rfl⟩
    · intro hne; exact absurd rfl (hne e)
    · simp
    · simp

theorem linear_bind {m : Prog σ α} {f : α → Prog σ β}
    (hm : Prog.Linear m) (hf : ∀ x, Prog.Linear (f x)) : Prog.Linear (m >>= f) := by
  intro w
  obtain ⟨e1, h1, ht1, hn1, hu1, hb1⟩ := hm w
  rw [bind_apply]
  rcases hmw : m w with ⟨r, w1⟩
  rw [hmw] at h1 ht1 hn1 hu1 hb1
  cases r with
  | returned x =>
    obtain ⟨e2, h2, ht2, hn2, hu2, hb2⟩ := hf x w1
    have hf1 : failures e1 = [] := hn1 (by intro e; simp)
    refine ⟨e1 ++ e2, ?_, ?_, ?_, hu2, hb2⟩
    · simp only at h1 ⊢; rw [h2, h1, List.append_assoc]
    · intro e he
      obtain ⟨pre, c, hpre, hfp⟩ := ht2 e he
      refine ⟨e1 ++ pre, c, ?_, ?_⟩
      · rw [hpre, List.append_assoc]
      · rw [failures_append, hf1, hfp]; rfl
    · intro hne
      rw [failures_append, hf1, hn2 hne]; rfl
  | thrown t =>
    simp only at h1 ht1 hn1 hu1 hb1 ⊢
    refine ⟨e1, h1, ?_, ?_, by simp, ?_⟩
    · intro e he
      have ht : t = .h5 e := by simpa using he
      subst ht
      exact ht1 e rfl
    · intro hne
      apply hn1
      intro e he
      exact hne e (by simpa using he)
    · intro h
      exact hb1 (by simpa using h)
  | exited n =>
    simp only at h1 hn1 ⊢
    exact ⟨e1, h1, by simp, fun _ => hn1 (by simp), by simp, by simp⟩
  | undefinedBehaviour => exact absurd rfl hu1

theorem writeAttempt_linear (L : Library σ) (self : WriteH5) (T : CType) (a : List Nat)
    (npts : Nat) : Prog.Linear (self.writeAttempt L T a npts) := by
  unfold WriteH5.writeAttempt Library.doH5File Library.doDataSpace Library.doCreateDataSet
    Library.doWrite Library.doClose
  cases T <;> simp only [] <;>
    repeat (first
      | apply linear_bind
      | exact linear_cout _
      | exact linear_exit _
      | exact linear_call _ _
      | intro (_ : Unit))

theorem recreate_linear (L : Library σ) (self : WriteH5) : Prog.Linear (self.recreate L) := by
  unfold WriteH5.recreate Library.doH5File Library.doClose
  repeat (first
      | apply linear_bind
      | exact linear_call _ _
      | intro (_ : Unit))

/-- The trace of an attempt: the file open, then calls that are not file opens. -/
theorem writeAttempt_trace (L : Library σ) (self : WriteH5) (T : CType) (a : List Nat)
    (npts : Nat) (w : World σ) :
    ∃ e ext, (self.writeAttempt L T a npts w).2.trace
        = w.trace ++ (.H5File self.filename .H5F_ACC_RDWR, e) :: ext ∧ ∀ x ∈ ext, notOpen x := by
  unfold WriteH5.writeAttempt Library.doH5File
  rcases h1 : L.H5File self.filename .H5F_ACC_RDWR w.lib with ⟨_ | _, s1⟩
  · rw [bind_call_error _ h1]
    exact ⟨_, [], rfl, by simp⟩
  · rw [bind_call_ok _ h1]
    have key : ∀ (m : Prog σ Unit) (w1 : World σ), Prog.Emits notOpen m →
        w1.trace = w.trace ++ [(.H5File self.filename .H5F_ACC_RDWR, none)] →
        ∃ e ext, (m w1).2.trace
          = w.trace ++ (.H5File self.filename .H5F_ACC_RDWR, e) :: ext ∧ ∀ x ∈ ext, notOpen x := by
      intro m w1 hm hw1
      obtain ⟨ext, h, hp⟩ := hm w1
      exact ⟨none, ext, by rw [h, hw1]; simp, hp⟩
    refine key _ _ ?_ rfl
    unfold Library.doDataSpace Library.doCreateDataSet Library.doWrite Library.doClose
    cases T <;> simp only [] <;>
      repeat (first
        | apply emits_bind
        | exact emits_cout _ _
        | exact emits_exit _ _
        | (apply emits_call; intro e; simp [notOpen])
        | intro (_ : Unit))

end writer

section writer2
variable {σ : Type}

theorem recreate_trace (L : Library σ) (self : WriteH5) (w : World σ) :
    ∃ e ext, (self.recreate L w).2.trace
        = w.trace ++ (.H5File self.filename .H5F_ACC_TRUNC, e) :: ext ∧ ∀ x ∈ ext, notOpen x := by
  unfold WriteH5.recreate Library.doH5File Library.doClose
  rcases h1 : L.H5File self.filename .H5F_ACC_TRUNC w.lib with ⟨e1 | u1, s1⟩
  · rw [bind_call_error _ h1]
    exact ⟨some e1, [], rfl, by simp⟩
  · rw [bind_call_ok _ h1]
    rcases h2 : L.close .file s1 with ⟨e2 | u2, s2⟩
    · rw [call_error h2]
      exact ⟨none, [(.close .file, some e2)], by simp, by simp [notOpen]⟩
    · rw [call_ok h2]
      exact ⟨none, [(.close .file, none)], by simp, by simp [notOpen]⟩

/-- The handler either recreates the file and closes it, or one of its two calls throws. -/
theorem recreate_cases (L : Library σ) (self : WriteH5) (w : World σ) :
    (∃ w2, self.recreate L w = (.returned (), w2) ∧
        w2.trace = w.trace ++ [(.H5File self.filename .H5F_ACC_TRUNC, none), (.close .file, none)])
    ∨ (∃ e w2 c, self.recreate L w = (.thrown (.h5 e), w2) ∧
        ∃ pre, w2.trace = w.trace ++ pre ++ [(c, some e)]) := by
  unfold WriteH5.recreate Library.doH5File Library.doClose
  rcases h1 : L.H5File self.filename .H5F_ACC_TRUNC w.lib with ⟨e1 | u1, s1⟩
  · rw [bind_call_error _ h1]
    exact Or.inr ⟨e1, _, .H5File self.filename .H5F_ACC_TRUNC, rfl, [], by simp⟩
  · rw [bind_call_ok _ h1]
    rcases h2 : L.close .file s1 with ⟨e2 | u2, s2⟩
    · rw [call_error h2]
      exact Or.inr ⟨e2, _, .close .file, rfl,
        [(.H5File self.filename .H5F_ACC_TRUNC, none)], by simp⟩
    · rw [call_ok h2]
      exact Or.inl ⟨_, rfl, by simp⟩

theorem writeLoop_done (L : Library σ) (self : WriteH5) (T : CType) (a : List Nat)
    (npts itr : Nat) (w w1 : World σ) (r : Res Unit)
    (h : self.writeAttempt L T a npts w = (r, w1)) (hr : r ≠ .thrown (.h5 .FileIException)) :
    self.writeLoop L T a npts itr w = (r, w1) := by
  rw [WriteH5.writeLoop, h]
  cases r with
  | thrown t =>
    cases t with
    | h5 e => cases e <;> first | rfl | exact absurd rfl hr
    | bad_array_new_length => rfl
  | _ => rfl

theorem writeLoop_abort (L : Library σ) (self : WriteH5) (T : CType) (a : List Nat)
    (npts itr : Nat) (w w1 w2 : World σ) (r : Res Unit)
    (h : self.writeAttempt L T a npts w = (.thrown (.h5 .FileIException), w1))
    (h2 : self.recreate L w1 = (r, w2)) (hr : ∀ u, r ≠ .returned u) :
    self.writeLoop L T a npts itr w = (r, w2) := by
  rw [WriteH5.writeLoop, h]
  simp only [h2]
  cases r with
  | returned u => exact absurd rfl (hr u)
  | _ => rfl

theorem writeLoop_retry (L : Library σ) (self : WriteH5) (T : CType) (a : List Nat)
    (npts itr : Nat) (w w1 w2 : World σ)
    (h : self.writeAttempt L T a npts w = (.thrown (.h5 .FileIException), w1))
    (h2 : self.recreate L w1 = (.returned (), w2)) (hi : itr + 1 ≤ 3) :
    self.writeLoop L T a npts itr w = self.writeLoop L T a npts (itr + 1) w2 := by
  rw [WriteH5.writeLoop, h]
  simp only [h2]
  rw [if_neg (by omega)]

theorem writeLoop_giveup (L : Library σ) (self : WriteH5) (T : CType) (a : List Nat)
    (npts itr : Nat) (w w1 w2 : World σ)
    (h : self.writeAttempt L T a npts w = (.thrown (.h5 .FileIException), w1))
    (h2 : self.recreate L w1 = (.returned (), w2)) (hi : 3 < itr + 1) :
    self.writeLoop L T a npts itr w
      = (.returned (), { w2 with out := w2.out ++ ["We've tried too many times in the Int writing sequence"] }) := by
  rw [WriteH5.writeLoop, h]
  simp only [h2]
  rw [if_pos (by omega)]
  rfl

theorem writeLoop_eq_fuel (L : Library σ) (self : WriteH5) (T : CType) (a : List Nat)
    (npts : Nat) : ∀ (fuel itr : Nat) (w : World σ),
      self.writeLoop L T a npts itr w = self.writeLoopFuel L T a npts fuel itr w := by
  intro fuel
  induction fuel with
  | zero => intro itr w; rfl
  | succ n ih =>
    intro itr w
    rw [WriteH5.writeLoop]
    simp only [WriteH5.writeLoopFuel]
    rcases self.writeAttempt L T a npts w with ⟨r, w1⟩
    rcases r with _ | t | _ | _
    · rfl
    · rcases t with e | _
      · cases e
        · simp only
          rcases self.recreate L w1 with ⟨r2, w2⟩
          cases r2
          · simp only
            by_cases hi : itr + 1 > 3
            · rw [if_pos hi, if_pos hi]
            · rw [if_neg hi, if_neg hi]
              exact ih _ _
          all_goals rfl
        all_goals rfl
      · rfl
    · rfl
    · rfl

theorem writeData_eq_fuel (L : Library σ) (env : Env) (self : WriteH5) (T : CType)
    (data : List Nat) (w : World σ) :
    self.writeData L env T data w
      = self.writeLoopFuel L T (((data.take (data.length % 4294967296)).map
          (hostBytes env T.sizeof)).flatten) (data.length % 4294967296) 5 0 w :=
  writeLoop_eq_fuel L self T _ _ 5 0 w

/-- The loop only appends to the trace, and what it appends has at most `4 - itr` opens
for writing and as many recreations. -/
theorem writeLoop_opens (L : Library σ) (self : WriteH5) (T : CType) (a : List Nat)
    (npts : Nat) : ∀ (n itr : Nat) (w : World σ), 4 - itr ≤ n → itr ≤ 3 →
      ∃ ext, (self.writeLoop L T a npts itr w).2.trace = w.trace ++ ext ∧
        opens .H5F_ACC_RDWR ext ≤ 4 - itr ∧ opens .H5F_ACC_TRUNC ext ≤ 4 - itr := by
  intro n
  induction n with
  | zero => intro itr w h1 h2; omega
  | succ n ih =>
    intro itr w h1 h2
    obtain ⟨e1, ext1, ht1, hp1⟩ := writeAttempt_trace L self T a npts w
    have ho1 := opens_eq_zero .H5F_ACC_RDWR ext1 hp1
    have ho1t := opens_eq_zero .H5F_ACC_TRUNC ext1 hp1
    rcases hatt : self.writeAttempt L T a npts w with ⟨r, w1⟩
    rw [hatt] at ht1
    simp only at ht1
    by_cases hr : r = .thrown (.h5 .FileIException)
    · subst hr
      obtain ⟨e2, ext2, ht2, hp2⟩ := recreate_trace L self w1
      have ho2 := opens_eq_zero .H5F_ACC_RDWR ext2 hp2
      have ho2t := opens_eq_zero .H5F_ACC_TRUNC ext2 hp2
      rcases hrec : self.recreate L w1 with ⟨r2, w2⟩
      rw [hrec] at ht2
      simp only at ht2
      have hw2 : w2.trace = w.trace ++
          ((Call.H5File self.filename .H5F_ACC_RDWR, e1) :: ext1 ++
            (Call.H5File self.filename .H5F_ACC_TRUNC, e2) :: ext2) := by
        rw [ht2, ht1]; simp
      have hc : opens .H5F_ACC_RDWR ((Call.H5File self.filename .H5F_ACC_RDWR, e1) :: ext1 ++
            (Call.H5File self.filename .H5F_ACC_TRUNC, e2) :: ext2) = 1 ∧
          opens .H5F_ACC_TRUNC ((Call.H5File self.filename .H5F_ACC_RDWR, e1) :: ext1 ++
            (Call.H5File self.filename .H5F_ACC_TRUNC, e2) :: ext2) = 1 := by
        rw [opens_append, opens_append]
        simp only [opens, List.countP_cons] at ho1 ho1t ho2 ho2t ⊢
        simp [ho1, ho1t, ho2, ho2t]
      by_cases hu : ∃ u, r2 = .returned u
      · obtain ⟨u, hu⟩ := hu
        subst hu
        by_cases hi : itr + 1 ≤ 3
        · rw [writeLoop_retry L self T a npts itr w w1 w2 hatt hrec hi]
          obtain ⟨ext3, ht3, hc3, hc3t⟩ := ih (itr + 1) w2 (by omega) hi
          refine ⟨((Call.H5File self.filename .H5F_ACC_RDWR, e1) :: ext1 ++
            (Call.H5File self.filename .H5F_ACC_TRUNC, e2) :: ext2) ++ ext3, ?_, ?_, ?_⟩
          · rw [ht3, hw2, List.append_assoc]
          · rw [opens_append, hc.1]; omega
          · rw [opens_append, hc.2]; omega
        · rw [writeLoop_giveup L self T a npts itr w w1 w2 hatt hrec (by omega)]
          exact ⟨_, hw2, by rw [hc.1]; omega, by rw [hc.2]; omega⟩
      · rw [writeLoop_abort L self T a npts itr w w1 w2 r2 hatt hrec (fun u h => hu ⟨u, h⟩)]
        exact ⟨_, hw2, by rw [hc.1]; omega, by rw [hc.2]; omega⟩
    · rw [writeLoop_done L self T a npts itr w w1 r hatt hr]
      refine ⟨_, ht1, ?_, ?_⟩
      · simp only [opens, List.countP_cons] at ho1 ⊢
        simp [ho1]; omega
      · simp only [opens, List.countP_cons] at ho1t ⊢
        simp [ho1t]

end writer2

section writer3
variable {σ : Type}

/-- An attempt for a supported element type that does not end in an HDF5 exception has
made all its calls, and returns. -/
theorem writeAttempt_numeric_ok (L : Library σ) (self : WriteH5) (T : CType) (a : List Nat)
    (npts : Nat) (w w1 : World σ) (r : Res Unit) (hT : ∀ size, T ≠ .other size)
    (h : self.writeAttempt L T a npts w = (r, w1)) (hr : ∀ e, r ≠ .thrown (.h5 e)) :
    r = .returned () ∧ ∃ ft mt, w1.trace = w.trace ++
      [(.H5File self.filename .H5F_ACC_RDWR, none), (.DataSpace 1 npts, none),
       (.createDataSet self.filename self.varName ft npts, none),
       (.write self.filename self.varName a mt, none), (.close .dataset, none),
       (.close .dataspace, none), (.close .file, none)] := by
  unfold WriteH5.writeAttempt Library.doH5File Library.doDataSpace Library.doCreateDataSet
    Library.doWrite Library.doClose at h
  rcases h1 : L.H5File self.filename .H5F_ACC_RDWR w.lib with ⟨e1 | u1, s1⟩
  · rw [bind_call_error _ h1] at h
    cases h; exact absurd rfl (hr e1)
  rw [bind_call_ok _ h1] at h
  rcases h2 : L.DataSpace 1 npts s1 with ⟨e2 | u2, s2⟩
  · rw [bind_call_error _ h2] at h
    cases h; exact absurd rfl (hr e2)
  rw [bind_call_ok _ h2] at h
  cases T with
  | other size => exact absurd rfl (hT size)
  | _ =>
    simp only [] at h
    all_goals
      rcases h3 : L.createDataSet self.filename self.varName _ npts s2 with ⟨e3 | u3, s3⟩
      · rw [bind_call_error _ h3] at h
        cases h; exact absurd rfl (hr e3)
      rw [bind_call_ok _ h3] at h
      rcases h4 : L.write self.filename self.varName a _ s3 with ⟨e4 | u4, s4⟩
      · rw [bind_call_error _ h4] at h
        cases h; exact absurd rfl (hr e4)
      rw [bind_call_ok _ h4] at h
      rcases h5 : L.close .dataset s4 with ⟨e5 | u5, s5⟩
      · rw [bind_call_error _ h5] at h
        cases h; exact absurd rfl (hr e5)
      rw [bind_call_ok _ h5] at h
      rcases h6 : L.close .dataspace s5 with ⟨e6 | u6, s6⟩
      · rw [bind_call_error _ h6] at h
        cases h; exact absurd rfl (hr e6)
      rw [bind_call_ok _ h6] at h
      rcases h7 : L.close .file s6 with ⟨e7 | u7, s7⟩
      · rw [call_error h7] at h
        cases h; exact absurd rfl (hr e7)
      rw [call_ok h7] at h
      cases h
      first
        | (refine ⟨rfl, PredType.STD_I32LE, PredType.STD_I32BE, ?_⟩
           simp only [List.append_assoc, List.cons_append, List.nil_append]
           done)
        | (refine ⟨rfl, PredType.STD_U32LE, PredType.STD_U32LE, ?_⟩
           simp only [List.append_assoc, List.cons_append, List.nil_append]
           done)
        | (refine ⟨rfl, PredType.IEEE_F32LE, PredType.IEEE_F32LE, ?_⟩
           simp only [List.append_assoc, List.cons_append, List.nil_append]
           done)
        | (refine ⟨rfl, PredType.IEEE_F64LE, PredType.IEEE_F64LE, ?_⟩
           simp only [List.append_assoc, List.cons_append, List.nil_append])


/-- After its first attempt the loop only appends to the trace. -/
theorem writeLoop_trace_from_attempt (L : Library σ) (self : WriteH5) (T : CType) (a : List Nat)
    (npts itr : Nat) (w : World σ) (hi : itr ≤ 3) :
    ∃ ext, (self.writeLoop L T a npts itr w).2.trace
      = (self.writeAttempt L T a npts w).2.trace ++ ext := by
  rcases hatt : self.writeAttempt L T a npts w with ⟨r, w1⟩
  by_cases hr : r = .thrown (.h5 .FileIException)
  · subst hr
    obtain ⟨e2, ext2, ht2, -⟩ := recreate_trace L self w1
    rcases hrec : self.recreate L w1 with ⟨r2, w2⟩
    rw [hrec] at ht2
    simp only at ht2
    by_cases hu : ∃ u, r2 = .returned u
    · obtain ⟨u, hu⟩ := hu
      subst hu
      by_cases hi2 : itr + 1 ≤ 3
      · rw [writeLoop_retry L self T a npts itr w w1 w2 hatt hrec hi2]
        obtain ⟨ext3, ht3, -, -⟩ := writeLoop_opens L self T a npts _ (itr + 1) w2 (le_refl _) hi2
        exact ⟨((Call.H5File self.filename .H5F_ACC_TRUNC, e2) :: ext2) ++ ext3, by
          rw [ht3, ht2, List.append_assoc]⟩
      · rw [writeLoop_giveup L self T a npts itr w w1 w2 hatt hrec (by omega)]
        exact ⟨_, ht2⟩
    · rw [writeLoop_abort L self T a npts itr w w1 w2 r2 hatt hrec (fun u h => hu ⟨u, h⟩)]
      exact ⟨_, ht2⟩
  · rw [writeLoop_done L self T a npts itr w w1 r hatt hr]
    exact ⟨[], by simp⟩


/-- A list that starts with an open and otherwise holds no opens, and ends with an open,
is that single entry. -/
theorem single_of_last_open (x y : Call × Option H5Exception)
    (ext pre : List (Call × Option H5Exception)) (hno : ∀ z ∈ ext, notOpen z)
    (hy : ¬ notOpen y) (h : x :: ext = pre ++ [y]) : ext = [] ∧ pre = [] ∧ x = y := by
  cases ext with
  | nil =>
    cases pre with
    | nil => simpa using h
    | cons p ps => simp at h
  | cons z zs =>
    exfalso
    have hl := congrArg List.getLast? h
    rw [List.getLast?_cons_cons, List.getLast?_concat] at hl
    exact hy (hno y (List.mem_of_getLast?_eq_some hl))

/-- The normal case of the retry: when the only call that fails during the loop is the
first open of the file, the loop recreates the file once and writes on the second
attempt. -/
theorem writeLoop_missing_normal (L : Library σ) (self : WriteH5) (T : CType) (a : List Nat)
    (npts : Nat) (w : World σ) (hw : w.trace = []) (hT : ∀ size, T ≠ .other size)
    (H : failures (self.writeLoop L T a npts 0 w).2.trace
      = [(.H5File self.filename .H5F_ACC_RDWR, some .FileIException)]) :
    (self.writeLoop L T a npts 0 w).1 = .returned () ∧
    ∃ ft mt, (self.writeLoop L T a npts 0 w).2.trace =
      [(.H5File self.filename .H5F_ACC_RDWR, some .FileIException),
       (.H5File self.filename .H5F_ACC_TRUNC, none), (.close .file, none),
       (.H5File self.filename .H5F_ACC_RDWR, none), (.DataSpace 1 npts, none),
       (.createDataSet self.filename self.varName ft npts, none),
       (.write self.filename self.varName a mt, none), (.close .dataset, none),
       (.close .dataspace, none), (.close .file, none)] := by
  obtain ⟨ext', hfin⟩ := writeLoop_trace_from_attempt L self T a npts 0 w (by omega)
  obtain ⟨eo, ext1, hstruct, hno⟩ := writeAttempt_trace L self T a npts w
  obtain ⟨ext, hlin, hthrown, hclean, -, -⟩ := writeAttempt_linear L self T a npts w
  rcases hatt : self.writeAttempt L T a npts w with ⟨r1, w1⟩
  rw [hatt] at hfin hstruct hlin hthrown hclean
  simp only [hw, List.nil_append] at hfin hstruct hlin hthrown hclean
  have hext : (Call.H5File self.filename .H5F_ACC_RDWR, eo) :: ext1 = ext := by
    rw [← hlin, hstruct]
  by_cases hth : ∃ e, r1 = .thrown (.h5 e)
  · obtain ⟨e, rfl⟩ := hth
    obtain ⟨pre, c, hpre, hfpre⟩ := hthrown e rfl
    have hfw1 : failures w1.trace = [(c, some e)] := by
      rw [hlin, hpre, failures_append, hfpre]; simp [failures]
    have H1 := H
    rw [hfin, failures_append, hfw1] at H1
    simp only [List.singleton_append, List.cons.injEq, Prod.mk.injEq, Option.some.injEq] at H1
    obtain ⟨⟨hc, he⟩, -⟩ := H1
    subst hc he
    obtain ⟨hext1, hpre0, -⟩ := single_of_last_open _ _ ext1 pre hno
      (by intro hn; exact hn _ _ rfl) (hext.trans hpre)
    subst hext1 hpre0
    have hw1 : w1.trace = [(Call.H5File self.filename .H5F_ACC_RDWR, some .FileIException)] := by
      rw [hlin, hpre]; rfl
    rcases recreate_cases L self w1 with ⟨w2, hrec, htr2⟩ | ⟨e2, w2, c2, hrec, pre2, htr2⟩
    · rw [writeLoop_retry L self T a npts 0 w w1 w2 hatt hrec (by omega)] at H ⊢
      obtain ⟨ext'', hfin2⟩ := writeLoop_trace_from_attempt L self T a npts (0 + 1) w2 (by omega)
      obtain ⟨ext3, hlin3, hthrown3, -, -, -⟩ := writeAttempt_linear L self T a npts w2
      rcases hatt2 : self.writeAttempt L T a npts w2 with ⟨r3, w3⟩
      rw [hatt2] at hfin2 hlin3 hthrown3
      simp only at hfin2 hlin3 hthrown3
      by_cases hth3 : ∃ e3, r3 = .thrown (.h5 e3)
      · exfalso
        obtain ⟨e3, rfl⟩ := hth3
        obtain ⟨pre3, c3, hpre3, hfpre3⟩ := hthrown3 e3 rfl
        rw [hfin2, hlin3, htr2, hw1, hpre3] at H
        have hl := congrArg List.length H
        simp [failures, List.filter_append] at hl
      · have hne : ∀ e, r3 ≠ .thrown (.h5 e) := fun e h => hth3 ⟨e, h⟩
        obtain ⟨hr3, ft, mt, htr3⟩ := writeAttempt_numeric_ok L self T a npts w2 w3 r3 hT hatt2 hne
        rw [writeLoop_done L self T a npts (0 + 1) w2 w3 r3 hatt2 (hne _)]
        refine ⟨hr3, ft, mt, ?_⟩
        simp only
        rw [htr3, htr2, hw1]
        rfl
    · exfalso
      rw [writeLoop_abort L self T a npts 0 w w1 w2 _ hatt hrec (by intro u; simp)] at H
      simp only at H
      rw [htr2, hw1] at H
      have hl := congrArg List.length H
      simp [failures, List.filter_append] at hl
  · exfalso
    have hne : ∀ e, r1 ≠ .thrown (.h5 e) := fun e h => hth ⟨e, h⟩
    rw [writeLoop_done L self T a npts 0 w w1 r1 hatt (hne _)] at H
    simp only at H
    rw [hlin, hclean hne] at H
    simp at H

end writer3

/-- The bound of four is attained: on a library where the file never opens for writing
while every creation succeeds, `writeData` opens four times, creates four times, prints
its message once and returns. -/
theorem writeData_bound_attained :
    opens .H5F_ACC_RDWR ((WriteH5.mk "/x" "f.h5").writeData neverOpens littleHost .float
        [1065353216] (World.start 0)).2.trace = 4 ∧
    opens .H5F_ACC_TRUNC ((WriteH5.mk "/x" "f.h5").writeData neverOpens littleHost .float
        [1065353216] (World.start 0)).2.trace = 4 ∧
    ((WriteH5.mk "/x" "f.h5").writeData neverOpens littleHost .float [1065353216]
        (World.start 0)).1 = .returned () ∧
    ((WriteH5.mk "/x" "f.h5").writeData neverOpens littleHost .float [1065353216]
        (World.start 0)).2.out
      = ["We've tried too many times in the Int writing sequence"] := by
  rw [writeData_eq_fuel]
  decide!

/-! ## C5: the retry is bounded -/

/-- C5. The file-not-found retry of `writeData` is bounded, whatever the library does:
`writeData` is a total function of the library's behaviour (the loop is defined by
recursion on `4 - itr`), and the trace of one call started with an empty trace holds at
most 4 opens of the file for writing and at most 4 creations (`H5F_ACC_TRUNC`).  For an
element type `writeData` has a branch for, when the only library call that fails during
the run is the first open of the file, with `FileIException` (the file is missing and the
library then behaves normally), the file is created once and the dataset is created and
written on the second attempt: the run returns and its trace is exactly the ten calls
listed. -/
theorem writeData_retry_bounded {σ : Type} (L : Library σ) (env : Env) (self : WriteH5)
    (T : CType) (data : List Nat) (s : σ) :
    (opens .H5F_ACC_RDWR (self.writeData L env T data (World.start s)).2.trace ≤ 4 ∧
      opens .H5F_ACC_TRUNC (self.writeData L env T data (World.start s)).2.trace ≤ 4) ∧
    ((∀ size, T ≠ .other size) →
      failures (self.writeData L env T data (World.start s)).2.trace
        = [(.H5File self.filename .H5F_ACC_RDWR, some .FileIException)] →
      (self.writeData L env T data (World.start s)).1 = .returned () ∧
      ∃ ft mt, (self.writeData L env T data (World.start s)).2.trace =
        [(.H5File self.filename .H5F_ACC_RDWR, some .FileIException),
         (.H5File self.filename .H5F_ACC_TRUNC, none), (.close .file, none),
         (.H5File self.filename .H5F_ACC_RDWR, none),
         (.DataSpace 1 (data.length % 4294967296), none),
         (.createDataSet self.filename self.varName ft (data.length % 4294967296), none),
         (.write self.filename self.varName
            ((data.take (data.length % 4294967296)).map (hostBytes env T.sizeof)).flatten mt,
            none),
         (.close .dataset, none), (.close .dataspace, none), (.close .file, none)]) := by
  constructor
  · obtain ⟨ext, ht, h1, h2⟩ := writeLoop_opens L self T
      ((data.take (data.length % 4294967296)).map (hostBytes env T.sizeof)).flatten
      (data.length % 4294967296) 4 0 (World.start s) (by omega) (by omega)
    unfold WriteH5.writeData
    rw [ht]
    simp only [World.start, List.nil_append]
    exact ⟨h1, h2⟩
  · intro hT H
    exact writeLoop_missing_normal L self T _ _ (World.start s) rfl hT H

/-- C5 at a concrete input: on the reference library with no file on disk, writing one
`float` to `/x` fails only at the first open, and the conclusion of the theorem holds. -/
theorem writeData_retry_bounded_witness :
    failures ((WriteH5.mk "/x" "f.h5").writeData Hdf5.library littleHost .float [1065353216]
        (World.start Hdf5.Disk.none)).2.trace
      = [(.H5File "f.h5" .H5F_ACC_RDWR, some .FileIException)] ∧
    ((WriteH5.mk "/x" "f.h5").writeData Hdf5.library littleHost .float [1065353216]
        (World.start Hdf5.Disk.none)).1 = .returned () ∧
    ∃ ft mt, ((WriteH5.mk "/x" "f.h5").writeData Hdf5.library littleHost .float [1065353216]
        (World.start Hdf5.Disk.none)).2.trace =
        [(.H5File "f.h5" .H5F_ACC_RDWR, some .FileIException),
         (.H5File "f.h5" .H5F_ACC_TRUNC, none), (.close .file, none),
         (.H5File "f.h5" .H5F_ACC_RDWR, none),
         (.DataSpace 1 ([1065353216].length % 4294967296), none),
         (.createDataSet "f.h5" "/x" ft ([1065353216].length % 4294967296), none),
         (.write "f.h5" "/x"
            (([1065353216].take ([1065353216].length % 4294967296)).map
              (hostBytes littleHost CType.float.sizeof)).flatten mt, none),
         (.close .dataset, none), (.close .dataspace, none), (.close .file, none)] :=
  ⟨by rw [writeData_eq_fuel]; rfl,
   (writeData_retry_bounded Hdf5.library littleHost ⟨"/x", "f.h5"⟩ .float [1065353216]
      Hdf5.Disk.none).2 (by intro size; simp) (by rw [writeData_eq_fuel]; rfl)⟩

/-! ## createGroup -/

section groups
variable {σ : Type}

theorem getlines_append (c : List Char) (hc : '/' ∉ c) (tok rest : List Char) :
    getlines tok (c ++ rest) = getlines (tok ++ c) rest := by
  induction c generalizing tok with
  | nil => simp
  | cons x xs ih =>
    have hx : x ≠ '/' := fun h => hc (by simp [h])
    have hxs : '/' ∉ xs := fun h => hc (by simp [h])
    rw [List.cons_append, getlines, if_neg hx, ih hxs]
    simp

/-- The tokenizer inverts joining with `'/'`: non-empty components without `'/'` are read
back one by one. -/
theorem getlines_intercalate (cs : List (List Char)) (hcs : ∀ c ∈ cs, c ≠ [] ∧ '/' ∉ c) :
    getlines [] (List.intercalate ['/'] cs) = cs := by
  induction cs with
  | nil => simp [List.intercalate, getlines]
  | cons c ds ih =>
    have hc := hcs c (by simp)
    cases ds with
    | nil =>
      simp only [List.intercalate, List.intersperse, List.flatten, List.append_nil]
      have := getlines_append c hc.2 [] []
      simp only [List.append_nil, List.nil_append] at this
      rw [this]
      simp [getlines, hc.1]
    | cons d es =>
      have ih2 := ih (fun x hx => hcs x (by simp [hx]))
      have hj : List.intercalate ['/'] (c :: d :: es)
          = c ++ ('/' :: List.intercalate ['/'] (d :: es)) := by
        simp [List.intercalate, List.intersperse]
      rw [hj, getlines_append c hc.2, List.nil_append]
      simp only [getlines, if_pos]
      rw [ih2]

theorem getlines_slash_intercalate (cs : List (List Char)) (hcs : ∀ c ∈ cs, c ≠ [] ∧ '/' ∉ c) :
    getlines [] ('/' :: List.intercalate ['/'] cs) = [] :: cs := by
  simp only [getlines, if_pos]
  rw [getlines_intercalate cs hcs]

theorem requestsFrom_components (cs : List (List Char)) (hcs : ∀ c ∈ cs, c ≠ []) (g : List Char) :
    requestsFrom cs g
      = cs.inits.tail.map (fun p => String.mk (g ++ (p.map (fun c => '/' :: c)).flatten)) := by
  induction cs generalizing g with
  | nil => simp [requestsFrom]
  | cons c ds ih =>
    have hc := hcs c (by simp)
    have hne : (g ++ ['/']) ++ c ≠ ['/'] := by
      intro h
      have hl := congrArg List.length h
      have : 0 < c.length := List.length_pos.mpr hc
      simp at hl
      omega
    simp only [requestsFrom, if_pos hne]
    rw [ih (fun x hx => hcs x (by simp [hx]))]
    simp only [List.inits_cons, List.tail_cons, List.map_map]
    cases hds : ds.inits with
    | nil => cases ds <;> simp at hds
    | cons i is =>
      have hi : i = [] := by
        cases ds <;> simp_all
      subst hi
      simp [Function.comp_def]


theorem groupRequests_append (t1 t2 : List (Call × Option H5Exception)) :
    groupRequests (t1 ++ t2) = groupRequests t1 ++ groupRequests t2 := by
  simp [groupRequests, List.filterMap_append]

/-- The loop of `createGroup` either runs through, having requested the groups of
`requestsFrom` with no call failing, or stops at the first call that throws. -/
theorem createGroupLoop_cases (L : Library σ) (self : WriteH5) (secs : List (List Char)) :
    ∀ (g : List Char) (w : World σ),
      (∃ w1, self.createGroupLoop L secs g w = (.returned (), w1) ∧
        groupRequests w1.trace = groupRequests w.trace ++ requestsFrom secs g ∧
        failures w1.trace = failures w.trace)
      ∨ (∃ e w1 c, self.createGroupLoop L secs g w = (.thrown (.h5 e), w1) ∧
        failures w1.trace = failures w.trace ++ [(c, some e)]) := by
  induction secs with
  | nil =>
    intro g w
    exact Or.inl ⟨w, rfl, by simp [requestsFrom], rfl⟩
  | cons sec rest ih =>
    intro g w
    rw [WriteH5.createGroupLoop]
    by_cases hg : (g ++ ['/']) ++ sec ≠ ['/']
    · simp only [if_pos hg, requestsFrom]
      unfold Library.doH5File Library.doCreateGroup Library.doClose
      rcases h1 : L.H5File self.filename .H5F_ACC_RDWR w.lib with ⟨e1 | u1, s1⟩
      · rw [bind_call_error _ h1]
        exact Or.inr ⟨e1, _, Call.H5File self.filename .H5F_ACC_RDWR, rfl, by simp [failures]⟩
      rw [bind_call_ok _ h1]
      rcases h2 : L.createGroup self.filename (String.mk ((g ++ ['/']) ++ sec)) s1 with ⟨e2 | u2, s2⟩
      · rw [bind_call_error _ h2]
        exact Or.inr ⟨e2, _, Call.createGroup self.filename (String.mk ((g ++ ['/']) ++ sec)), rfl,
          by simp [failures]⟩
      rw [bind_call_ok _ h2]
      rcases h3 : L.close .group s2 with ⟨e3 | u3, s3⟩
      · rw [bind_call_error _ h3]
        exact Or.inr ⟨e3, _, Call.close .group, rfl, by simp [failures]⟩
      rw [bind_call_ok _ h3]
      rcases h4 : L.close .file s3 with ⟨e4 | u4, s4⟩
      · rw [bind_call_error _ h4]
        exact Or.inr ⟨e4, _, Call.close .file, rfl, by simp [failures]⟩
      rw [bind_call_ok _ h4]
      rcases ih ((g ++ ['/']) ++ sec) ⟨s4, w.out, w.err, w.trace ++
          [(Call.H5File self.filename .H5F_ACC_RDWR, none)] ++
          [(Call.createGroup self.filename (String.mk ((g ++ ['/']) ++ sec)), none)] ++
          [(Call.close .group, none)] ++ [(Call.close .file, none)]⟩
        with ⟨w1, hr, hreq, hf⟩ | ⟨e, w1, c, hr, hf⟩
      · refine Or.inl ⟨w1, hr, ?_, ?_⟩
        · rw [hreq]; simp [groupRequests, List.filterMap_append]
        · rw [hf]; simp [failures]
      · refine Or.inr ⟨e, w1, c, hr, ?_⟩
        rw [hf]; simp [failures]
    · simp only [if_neg hg, requestsFrom, List.nil_append]
      exact ih _ _


/-- The handlers of `createGroup` leave the trace of the loop as it is. -/
theorem createGroup_trace (L : Library σ) (self : WriteH5) (groupName : String) (w : World σ) :
    (self.createGroup L groupName w).2.trace
      = (self.createGroupLoop L (getlines [] groupName.toList) [] w).2.trace := by
  unfold WriteH5.createGroup
  rcases self.createGroupLoop L (getlines [] groupName.toList) [] w with ⟨r, w1⟩
  rcases r with _ | t | _ | _
  · rfl
  · rcases t with e | _
    · cases e <;> rfl
    · rfl
  · rfl
  · rfl

/-- When no call of a `createGroup` run fails, the run requests the groups of `requestsFrom`. -/
theorem createGroup_requests (L : Library σ) (self : WriteH5) (groupName : String) (s : σ)
    (h : failures (self.createGroup L groupName (World.start s)).2.trace = []) :
    groupRequests (self.createGroup L groupName (World.start s)).2.trace
      = requestsFrom (getlines [] groupName.toList) [] := by
  rw [createGroup_trace] at h ⊢
  rcases createGroupLoop_cases L self (getlines [] groupName.toList) [] (World.start s)
    with ⟨w1, hr, hreq, -⟩ | ⟨e, w1, c, hr, hf⟩
  · rw [hr]
    simpa [World.start, groupRequests] using hreq
  · rw [hr] at h
    simp only at h
    rw [hf] at h
    simp at h

/-- The loop never requests the group `"/"`. -/
theorem createGroupLoop_no_root (L : Library σ) (self : WriteH5) (secs : List (List Char)) :
    ∀ g : List Char, Prog.Emits (fun x => ∀ file, x.1 ≠ Call.createGroup file "/")
      (self.createGroupLoop L secs g) := by
  induction secs with
  | nil => intro g; exact emits_pure _ _
  | cons sec rest ih =>
    intro g
    rw [WriteH5.createGroupLoop]
    by_cases hg : (g ++ ['/']) ++ sec ≠ ['/']
    · simp only [if_pos hg]
      unfold Library.doH5File Library.doCreateGroup Library.doClose
      refine emits_bind (emits_call _ _ (by intro e file; simp)) (fun _ => ?_)
      refine emits_bind (emits_call _ _ ?_) (fun _ => ?_)
      · intro e file h
        simp only [Call.createGroup.injEq] at h
        exact hg (by have := congrArg String.data h.2; simpa using this)
      refine emits_bind (emits_call _ _ (by intro e file; simp)) (fun _ => ?_)
      exact emits_bind (emits_call _ _ (by intro e file; simp)) (fun _ => ih _)
    · simp only [if_neg hg]
      exact ih _

theorem collapseSlashes_append (c : List Char) (hc : '/' ∉ c) (rest : List Char) :
    collapseSlashes (c ++ rest) = c ++ collapseSlashes rest := by
  induction c with
  | nil => simp
  | cons x xs ih =>
    have hx : x ≠ '/' := fun h => hc (by simp [h])
    have hxs : '/' ∉ xs := fun h => hc (by simp [h])
    cases hl : xs ++ rest with
    | nil =>
      simp only [List.append_eq_nil] at hl
      obtain ⟨rfl, rfl⟩ := hl
      simp [collapseSlashes]
    | cons d t =>
      rw [List.cons_append, hl, collapseSlashes, if_neg (by simp [hx]), ← hl, ih hxs]
      simp

theorem collapseSlashes_component (c : List Char) (hc : c ≠ [] ∧ '/' ∉ c) (rest : List Char) :
    collapseSlashes ('/' :: (c ++ rest)) = '/' :: (c ++ collapseSlashes rest) := by
  cases c with
  | nil => exact absurd rfl hc.1
  | cons x xs =>
    have hx : x ≠ '/' := fun h => hc.2 (by simp [h])
    rw [List.cons_append, collapseSlashes, if_neg (by simp [hx]), ← List.cons_append,
      collapseSlashes_append _ hc.2]

theorem collapseSlashes_path (p : List (List Char)) (hp : ∀ c ∈ p, c ≠ [] ∧ '/' ∉ c) :
    collapseSlashes (p.map (fun c => '/' :: c)).flatten = (p.map (fun c => '/' :: c)).flatten := by
  induction p with
  | nil => simp [collapseSlashes]
  | cons c q ih =>
    simp only [List.map_cons, List.flatten_cons, List.cons_append]
    rw [collapseSlashes_component c (hp c (by simp)), ih (fun x hx => hp x (by simp [hx]))]

theorem collapseSlashes_slash_path (p : List (List Char)) (hne : p ≠ [])
    (hp : ∀ c ∈ p, c ≠ [] ∧ '/' ∉ c) :
    collapseSlashes ('/' :: (p.map (fun c => '/' :: c)).flatten)
      = (p.map (fun c => '/' :: c)).flatten := by
  cases p with
  | nil => exact absurd rfl hne
  | cons c q =>
    have h := collapseSlashes_path (c :: q) hp
    simp only [List.map_cons, List.flatten_cons, List.cons_append] at h ⊢
    rw [collapseSlashes, if_pos ⟨rfl, rfl⟩, h]

theorem pathString_inits_chain (cs : List (List Char)) (pre : List Char) :
    List.Chain' (fun a b : List Char => a <+: b ∧ a.length < b.length)
      (cs.inits.map (fun p => pre ++ (pathString p).data)) := by
  induction cs generalizing pre with
  | nil => simp [pathString]
  | cons c ds ih =>
    have he : (fun p => pre ++ (pathString p).data) ∘ (fun t => c :: t)
        = fun p => (pre ++ '/' :: c) ++ (pathString p).data := by
      funext p
      simp [pathString]
    rw [List.inits_cons, List.map_cons, List.map_map, he, List.chain'_cons']
    refine ⟨?_, ih (pre ++ '/' :: c)⟩
    intro y hy
    have hhead : (ds.inits.map (fun p => (pre ++ '/' :: c) ++ (pathString p).data)).head?
        = some (pre ++ '/' :: c) := by
      cases ds <;> simp [pathString]
    rw [hhead] at hy
    cases hy
    simp [pathString]

end groups

/-! ## C10: group paths are requested parent first -/

/-- C10. For a group name `c_1/c_2/.../c_n` whose components are non-empty and free of
`'/'` (the empty name is the case of no component), a run of `createGroup` in which no
library call fails requests the creation of exactly the paths `/c_1`, `/c_1/c_2`, ...,
`/c_1/.../c_n` (one per cumulative prefix) in that order.  For the same name with a
leading slash the requests are those paths with one more `'/'` in front, which are the
same paths once repeated `'/'` are collapsed.  For no name and no behaviour of the library
is the path `"/"` requested.  In the list of paths each one is a strictly longer
extension of the one before it: a parent is requested before its child. -/
theorem createGroup_requests_parent_first {σ : Type} (L : Library σ) (self : WriteH5) (s : σ)
    (cs : List (List Char)) (hcs : ∀ c ∈ cs, c ≠ [] ∧ '/' ∉ c) :
    (failures (self.createGroup L (String.mk (List.intercalate ['/'] cs))
        (World.start s)).2.trace = [] →
      groupRequests (self.createGroup L (String.mk (List.intercalate ['/'] cs))
        (World.start s)).2.trace = cs.inits.tail.map pathString) ∧
    (failures (self.createGroup L (String.mk ('/' :: List.intercalate ['/'] cs))
        (World.start s)).2.trace = [] →
      groupRequests (self.createGroup L (String.mk ('/' :: List.intercalate ['/'] cs))
          (World.start s)).2.trace
        = cs.inits.tail.map (fun p => String.mk ('/' :: (pathString p).data)) ∧
      (groupRequests (self.createGroup L (String.mk ('/' :: List.intercalate ['/'] cs))
          (World.start s)).2.trace).map (fun r => String.mk (collapseSlashes r.data))
        = cs.inits.tail.map pathString) ∧
    (∀ name : String, "/" ∉ groupRequests (self.createGroup L name (World.start s)).2.trace) ∧
    List.Chain' (fun a b : String => a.data <+: b.data ∧ a.data.length < b.data.length)
      (cs.inits.tail.map pathString) := by
  have hne : ∀ c ∈ cs, c ≠ [] := fun c hc => (hcs c hc).1
  refine ⟨?_, ?_, ?_, ?_⟩
  · intro h
    rw [createGroup_requests L self _ s h]
    show requestsFrom (getlines [] (List.intercalate ['/'] cs)) [] = _
    rw [getlines_intercalate cs hcs, requestsFrom_components cs hne]
    rfl
  · intro h
    have hreq : groupRequests (self.createGroup L (String.mk ('/' :: List.intercalate ['/'] cs))
          (World.start s)).2.trace
        = cs.inits.tail.map (fun p => String.mk ('/' :: (pathString p).data)) := by
      rw [createGroup_requests L self _ s h]
      show requestsFrom (getlines [] ('/' :: List.intercalate ['/'] cs)) [] = _
      rw [getlines_slash_intercalate cs hcs]
      simp only [requestsFrom, List.nil_append, List.append_nil, ne_eq, not_true_eq_false,
        if_false]
      rw [requestsFrom_components cs hne]
      rfl
    refine ⟨hreq, ?_⟩
    rw [hreq, List.map_map]
    apply List.map_congr_left
    intro p hp
    have hp2 : p ∈ cs.inits := List.mem_of_mem_tail hp
    have hpre : p <+: cs := (List.mem_inits p cs).mp hp2
    have hpne : p ≠ [] := by
      intro hnil
      subst hnil
      cases cs with
      | nil => simp at hp
      | cons c ds =>
        simp only [List.inits_cons, List.tail_cons, List.mem_map] at hp
        obtain ⟨q, -, hq⟩ := hp
        simp at hq
    simp only [Function.comp, pathString]
    rw [collapseSlashes_slash_path p hpne (fun c hc => hcs c (hpre.subset hc))]
  · intro name hmem
    obtain ⟨ext, ht, hp⟩ := createGroupLoop_no_root L self (getlines [] name.toList) []
      (World.start s)
    rw [createGroup_trace, ht] at hmem
    simp only [World.start, List.nil_append, groupRequests, List.mem_filterMap] at hmem
    obtain ⟨x, hx, hxe⟩ := hmem
    rcases x with ⟨c, e⟩
    cases c <;> simp at hxe
    subst hxe
    exact hp _ hx _ rfl
  · have h := pathString_inits_chain cs []
    simp only [List.nil_append] at h
    rw [List.chain'_map] at h ⊢
    exact h.tail

/-- C10 at a concrete input: on the reference library with an empty file `f.h5`, the
names `a/b` and `/a/b` are created without a failing call. -/
theorem createGroup_requests_parent_first_witness :
    groupRequests ((WriteH5.mk "/x" "f.h5").createGroup Hdf5.library "a/b"
        (World.start (Hdf5.Disk.none.set "f.h5" Hdf5.Image.empty))).2.trace = ["/a", "/a/b"] ∧
    groupRequests ((WriteH5.mk "/x" "f.h5").createGroup Hdf5.library "/a/b"
        (World.start (Hdf5.Disk.none.set "f.h5" Hdf5.Image.empty))).2.trace = ["//a", "//a/b"] :=
  have h := createGroup_requests_parent_first Hdf5.library (WriteH5.mk "/x" "f.h5")
    (Hdf5.Disk.none.set "f.h5" Hdf5.Image.empty) [['a'], ['b']] (by decide)
  ⟨h.1 rfl, (h.2.1 rfl).1⟩


/-! ## The readers -/

section readers
variable {σ α β : Type}

theorem noexit_pure (a : α) : Prog.NoExit (pure a : Prog σ α) := by
  intro w n; simp [pure_apply]

theorem noexit_cout (line : String) : Prog.NoExit (cout line : Prog σ Unit) := by
  intro w n; simp [cout]

theorem noexit_call (c : Call) (f : σ → Except H5Exception α × σ) : Prog.NoExit (call c f) := by
  intro w n
  rcases h : f w.lib with ⟨r, s⟩
  cases r with
  | ok a => rw [call_ok h]; simp
  | error e => rw [call_error h]; simp

theorem noexit_newArray (env : Env) (size : Nat) (npts : Int) :
    Prog.NoExit (newArray env size npts : Prog σ (List Nat)) := by
  intro w n
  unfold newArray
  split <;> simp

theorem noexit_bind {m : Prog σ α} {f : α → Prog σ β}
    (hm : Prog.NoExit m) (hf : ∀ x, Prog.NoExit (f x)) : Prog.NoExit (m >>= f) := by
  intro w n
  have h1 := hm w
  rw [bind_apply]
  rcases hmw : m w with ⟨r, w1⟩
  rw [hmw] at h1
  cases r with
  | returned x => exact hf x w1 n
  | thrown t => simp
  | exited k => exact absurd rfl (h1 k)
  | undefinedBehaviour => simp

theorem noexit_ite {c : Prop} [Decidable c] {a b : Prog σ α}
    (ha : Prog.NoExit a) (hb : Prog.NoExit b) : Prog.NoExit (if c then a else b) := by
  split
  · exact ha
  · exact hb

theorem noexit_readInto (L : Library σ) (file name : String) (data : List Nat)
    (mtype : PredType) : Prog.NoExit (readInto L file name data mtype) := by
  unfold readInto Library.doRead
  refine noexit_bind (noexit_call _ _) (fun bytes => ?_)
  split
  · exact noexit_pure _
  · intro w n; simp

/-- The handlers of the readers turn the two caught exceptions into an empty result and
leave every other outcome as it is. -/
theorem catchEmpty_exited (body : Prog σ (List α)) (w : World σ) (n : Nat) :
    (LoadH5.catchEmpty body w).1 = .exited n ↔ (body w).1 = .exited n := by
  unfold LoadH5.catchEmpty
  rcases body w with ⟨r, w1⟩
  rcases r with _ | t | _ | _
  · simp
  · rcases t with e | _
    · cases e <;> simp [bind_apply, printError, pure_apply]
    · simp
  · simp
  · simp

theorem catchEmpty_of_exited (body : Prog σ (List α)) (w w1 : World σ) (n : Nat)
    (h : body w = (.exited n, w1)) : LoadH5.catchEmpty body w = (.exited n, w1) := by
  unfold LoadH5.catchEmpty
  rw [h]

theorem catchEmpty_of_returned (body : Prog σ (List α)) (w w1 : World σ) (v : List α)
    (h : body w = (.returned v, w1)) : LoadH5.catchEmpty body w = (.returned v, w1) := by
  unfold LoadH5.catchEmpty
  rw [h]

theorem getDataintTry_class (L : Library σ) (env : Env) (self : LoadH5) (w : World σ)
    (s1 s2 : σ) (d : DataSetInfo)
    (hfile : L.H5File self.filename .H5F_ACC_RDONLY w.lib = (.ok (), s1))
    (hds : L.openDataSet self.filename self.varName s1 = (.ok d, s2)) :
    (d.cls ≠ 0 → self.getDataintTry L env w = (.exited 1,
        ⟨s2, w.out ++ [self.varName ++ " is not an int... you can't save this as an int."], w.err,
          w.trace ++ [(.H5File self.filename .H5F_ACC_RDONLY, none)]
            ++ [(.openDataSet self.filename self.varName, none)]⟩)) ∧
    (d.cls = 0 → ∀ n, (self.getDataintTry L env w).1 ≠ .exited n) := by
  unfold LoadH5.getDataintTry Library.doH5File Library.doOpenDataSet
  rw [bind_call_ok _ hfile, bind_call_ok _ hds]
  constructor
  · intro hc
    simp only [ne_eq, hc, not_false_eq_true, if_true, bind_apply, cout, exit]
  · intro hc n
    simp only [ne_eq, hc, not_true_eq_false, if_false]
    rw [bind_apply, pure_apply]
    simp only
    revert n
    refine (?_ : Prog.NoExit _) _
    unfold Library.doClose
    repeat' (first
      | exact noexit_pure _
      | exact noexit_cout _
      | exact noexit_call _ _
      | exact noexit_newArray _ _ _
      | exact noexit_readInto _ _ _ _ _
      | apply noexit_bind
      | apply noexit_ite
      | intro (_ : Unit)
      | intro (_ : List Nat))


theorem orderText_little (o : Int) :
    Hdf5.orderText o = "Little endian byte ordering (0)" ↔ o = 0 := by
  unfold Hdf5.orderText
  split_ifs <;> simp_all

theorem orderText_big (o : Int) :
    Hdf5.orderText o = "Big endian byte ordering (1)" ↔ o = 1 := by
  unfold Hdf5.orderText
  split_ifs <;> simp_all

theorem orderText_not_little_typo (o : Int) :
    Hdf5.orderText o ≠ "Little endian byte order_stringing (0)" := by
  unfold Hdf5.orderText
  split_ifs <;> simp

theorem orderText_not_big_typo (o : Int) :
    Hdf5.orderText o ≠ "Big endian byte order_stringing (1)" := by
  unfold Hdf5.orderText
  split_ifs <;> simp

theorem elements_length (env : Env) (size : Nat) (n : Nat) :
    ∀ data : List Nat, (elements env size data n).length = n := by
  induction n with
  | zero => intro data; rfl
  | succ k ih => intro data; simp [elements, ih]

theorem toInt32_of_lt (v : Int) (h0 : 0 ≤ v) (h1 : v < 2147483648) : toInt32 v = v := by
  unfold toInt32
  have : v % 4294967296 = v := Int.emod_eq_of_lt h0 (by omega)
  rw [this, if_pos h1]


theorem close_eq (L : Library σ) (hclose : ∀ h s, (L.close h s).1 = .ok ()) (h : Handle) (s : σ) :
    L.close h s = (.ok (), (L.close h s).2) := by
  rw [← hclose h s]

/-- The four `close` calls at the end of a reader, when closing succeeds. -/
theorem closes_returned (L : Library σ) (hclose : ∀ h s, (L.close h s).1 = .ok ()) (v : α)
    (w : World σ) :
    ∃ s4, (do
        L.doClose .dataspace
        L.doClose .datatype
        L.doClose .dataset
        L.doClose .file
        pure v : Prog σ α) w = (.returned v, ⟨s4, w.out, w.err, w.trace ++
          [(.close .dataspace, none), (.close .datatype, none), (.close .dataset, none),
           (.close .file, none)]⟩) := by
  unfold Library.doClose
  refine ⟨(L.close .file (L.close .dataset (L.close .datatype
    (L.close .dataspace w.lib).2).2).2).2, ?_⟩
  rw [bind_call_ok _ (close_eq L hclose _ _), bind_call_ok _ (close_eq L hclose _ _),
    bind_call_ok _ (close_eq L hclose _ _), bind_call_ok _ (close_eq L hclose _ _), pure_apply]
  simp

theorem newArray_of_nonneg (env : Env) (size : Nat) (npts : Int) (h : 0 ≤ npts) (w : World σ) :
    (newArray env size npts : Prog σ (List Nat)) w
      = (.returned (freshArray env size npts.toNat), w) := by
  unfold newArray
  rw [if_neg (by omega)]

theorem getDataintTry_unrecognised (L : Library σ) (env : Env) (self : LoadH5) (w : World σ)
    (s1 s2 : σ) (d : DataSetInfo)
    (hfile : L.H5File self.filename .H5F_ACC_RDONLY w.lib = (.ok (), s1))
    (hds : L.openDataSet self.filename self.varName s1 = (.ok d, s2))
    (hclose : ∀ h s, (L.close h s).1 = .ok ())
    (hstr : d.order_string = Hdf5.orderText d.order)
    (hn : 0 ≤ d.npoints ∧ d.npoints < 2147483648) (hcls : d.cls = 0)
    (hun : ¬ ((d.order = 0 ∨ d.order = 1) ∧ (d.size = 1 ∨ d.size = 2 ∨ d.size = 4 ∨ d.size = 8))) :
    ∃ v w1, self.getDataintTry L env w = (.returned v, w1) ∧ v.length = d.npoints.toNat ∧
      w1.out = w.out ++ ["Did not find data type"] ∧ readRequests w1.trace = readRequests w.trace := by
  unfold LoadH5.getDataintTry Library.doH5File Library.doOpenDataSet
  rw [bind_call_ok _ hfile, bind_call_ok _ hds]
  simp only [ne_eq, hcls, not_true_eq_false, if_false]
  rw [bind_apply, pure_apply]
  simp only
  rw [bind_apply, newArray_of_nonneg env 4 _ (by rw [toInt32_of_lt _ hn.1 hn.2]; exact hn.1)]
  simp only [hstr, orderText_little, orderText_not_little_typo, orderText_not_big_typo,
    false_or, or_self]
  have c1 : ¬ (d.order = 0 ∧ d.size = 1) := fun h => hun ⟨Or.inl h.1, by simp [h.2]⟩
  have c2 : ¬ (d.order = 0 ∧ d.size = 2) := fun h => hun ⟨Or.inl h.1, by simp [h.2]⟩
  have c3 : ¬ (d.order = 0 ∧ d.size = 4) := fun h => hun ⟨Or.inl h.1, by simp [h.2]⟩
  have c4 : ¬ (d.order = 0 ∧ d.size = 8) := fun h => hun ⟨Or.inl h.1, by simp [h.2]⟩
  have c5 : ¬ (d.order = 1 ∧ d.size = 1) := fun h => hun ⟨Or.inr h.1, by simp [h.2]⟩
  have c6 : ¬ (d.order = 1 ∧ d.size = 2) := fun h => hun ⟨Or.inr h.1, by simp [h.2]⟩
  have c7 : ¬ (d.order = 1 ∧ d.size = 4) := fun h => hun ⟨Or.inr h.1, by simp [h.2]⟩
  have c8 : ¬ (d.order = 1 ∧ d.size = 8) := fun h => hun ⟨Or.inr h.1, by simp [h.2]⟩
  rw [if_neg c1, if_neg c2, if_neg c3, if_neg c4, if_neg c5, if_neg c6, if_neg c7, if_neg c8]
  rw [bind_apply]
  simp only [cout]
  rw [bind_apply, pure_apply]
  simp only
  obtain ⟨s4, h4⟩ := closes_returned L hclose
    ((elements env 4 (freshArray env 4 (toInt32 d.npoints).toNat) (toInt32 d.npoints).toNat).map
      (fun (bits : Nat) => toInt32 (Int.ofNat bits)))
    ⟨s2, w.out ++ ["Did not find data type"], w.err,
      w.trace ++ [(.H5File self.filename .H5F_ACC_RDONLY, none)]
        ++ [(.openDataSet self.filename self.varName, none)]⟩
  refine ⟨_, _, h4, ?_, rfl, ?_⟩
  · rw [List.length_map, elements_length, toInt32_of_lt _ hn.1 hn.2]
  · simp [readRequests, List.filterMap_append]


theorem getDatafloatTry_class (L : Library σ) (env : Env) (self : LoadH5) (w : World σ)
    (s1 s2 : σ) (d : DataSetInfo)
    (hfile : L.H5File self.filename .H5F_ACC_RDONLY w.lib = (.ok (), s1))
    (hds : L.openDataSet self.filename self.varName s1 = (.ok d, s2)) :
    (d.cls ≠ 1 → self.getDatafloatTry L env w = (.exited 1,
        ⟨s2, w.out ++ [self.varName ++ " is not a float... you can't save this as a float."],
          w.err, w.trace ++ [(.H5File self.filename .H5F_ACC_RDONLY, none)]
            ++ [(.openDataSet self.filename self.varName, none)]⟩)) ∧
    (d.cls = 1 → ∀ n, (self.getDatafloatTry L env w).1 ≠ .exited n) := by
  unfold LoadH5.getDatafloatTry Library.doH5File Library.doOpenDataSet
  rw [bind_call_ok _ hfile, bind_call_ok _ hds]
  constructor
  · intro hc
    simp only [ne_eq, hc, not_false_eq_true, if_true, bind_apply, cout, exit]
  · intro hc n
    simp only [ne_eq, hc, not_true_eq_false, if_false]
    rw [bind_apply, pure_apply]
    simp only
    revert n
    refine (?_ : Prog.NoExit _) _
    unfold Library.doClose
    repeat' (first
      | exact noexit_pure _
      | exact noexit_cout _
      | exact noexit_call _ _
      | exact noexit_newArray _ _ _
      | exact noexit_readInto _ _ _ _ _
      | apply noexit_bind
      | apply noexit_ite
      | intro (_ : Unit)
      | intro (_ : List Nat))

theorem getDatadoubleTry_class (L : Library σ) (env : Env) (self : LoadH5) (w : World σ)
    (s1 s2 : σ) (d : DataSetInfo)
    (hfile : L.H5File self.filename .H5F_ACC_RDONLY w.lib = (.ok (), s1))
    (hds : L.openDataSet self.filename self.varName s1 = (.ok d, s2)) :
    (d.cls ≠ 1 → self.getDatadoubleTry L env w = (.exited 1,
        ⟨s2, w.out ++ [self.varName ++ " is not a float... you can't save this as a float."],
          w.err, w.trace ++ [(.H5File self.filename .H5F_ACC_RDONLY, none)]
            ++ [(.openDataSet self.filename self.varName, none)]⟩)) ∧
    (d.cls = 1 → ∀ n, (self.getDatadoubleTry L env w).1 ≠ .exited n) := by
  unfold LoadH5.getDatadoubleTry Library.doH5File Library.doOpenDataSet
  rw [bind_call_ok _ hfile, bind_call_ok _ hds]
  constructor
  · intro hc
    simp only [ne_eq, hc, not_false_eq_true, if_true, bind_apply, cout, exit]
  · intro hc n
    simp only [ne_eq, hc, not_true_eq_false, if_false]
    rw [bind_apply, pure_apply]
    simp only
    revert n
    refine (?_ : Prog.NoExit _) _
    unfold Library.doClose
    repeat' (first
      | exact noexit_pure _
      | exact noexit_cout _
      | exact noexit_call _ _
      | exact noexit_newArray _ _ _
      | exact noexit_readInto _ _ _ _ _
      | apply noexit_bind
      | apply noexit_ite
      | intro (_ : Unit)
      | intro (_ : List Nat))

theorem getDatafloatTry_unrecognised (L : Library σ) (env : Env) (self : LoadH5) (w : World σ)
    (s1 s2 : σ) (d : DataSetInfo)
    (hfile : L.H5File self.filename .H5F_ACC_RDONLY w.lib = (.ok (), s1))
    (hds : L.openDataSet self.filename self.varName s1 = (.ok d, s2))
    (hclose : ∀ h s, (L.close h s).1 = .ok ())
    (hstr : d.order_string = Hdf5.orderText d.order)
    (hn : 0 ≤ d.npoints ∧ d.npoints < 2147483648) (hcls : d.cls = 1)
    (hun : ¬ ((d.order = 0 ∨ d.order = 1) ∧ (d.size = 4 ∨ d.size = 8))) :
    ∃ v w1, self.getDatafloatTry L env w = (.returned v, w1) ∧ v.length = d.npoints.toNat ∧
      w1.out = w.out ++ ["Did not find data type"] ∧ readRequests w1.trace = readRequests w.trace := by
  unfold LoadH5.getDatafloatTry Library.doH5File Library.doOpenDataSet
  rw [bind_call_ok _ hfile, bind_call_ok _ hds]
  simp only [ne_eq, hcls, not_true_eq_false, if_false]
  rw [bind_apply, pure_apply]
  simp only
  rw [bind_apply, newArray_of_nonneg env 4 _ (by rw [toInt32_of_lt _ hn.1 hn.2]; exact hn.1)]
  simp only [hstr, orderText_not_little_typo, orderText_not_big_typo, false_or]
  have c1 : ¬ (d.order = 0 ∧ d.size = 4) := fun h => hun ⟨Or.inl h.1, by simp [h.2]⟩
  have c2 : ¬ (d.order = 0 ∧ d.size = 8) := fun h => hun ⟨Or.inl h.1, by simp [h.2]⟩
  have c3 : ¬ (d.order = 1 ∧ d.size = 4) := fun h => hun ⟨Or.inr h.1, by simp [h.2]⟩
  have c4 : ¬ (d.order = 1 ∧ d.size = 8) := fun h => hun ⟨Or.inr h.1, by simp [h.2]⟩
  rw [if_neg c1, if_neg c2, if_neg c3, if_neg c4]
  rw [bind_apply]
  simp only [cout]
  rw [bind_apply, pure_apply]
  simp only
  obtain ⟨s4, h4⟩ := closes_returned L hclose
    (elements env 4 (freshArray env 4 (toInt32 d.npoints).toNat) (toInt32 d.npoints).toNat)
    ⟨s2, w.out ++ ["Did not find data type"], w.err,
      w.trace ++ [(.H5File self.filename .H5F_ACC_RDONLY, none)]
        ++ [(.openDataSet self.filename self.varName, none)]⟩
  refine ⟨_, _, h4, ?_, rfl, ?_⟩
  · rw [elements_length, toInt32_of_lt _ hn.1 hn.2]
  · simp [readRequests, List.filterMap_append]

theorem getDatadoubleTry_unrecognised (L : Library σ) (env : Env) (self : LoadH5) (w : World σ)
    (s1 s2 : σ) (d : DataSetInfo)
    (hfile : L.H5File self.filename .H5F_ACC_RDONLY w.lib = (.ok (), s1))
    (hds : L.openDataSet self.filename self.varName s1 = (.ok d, s2))
    (hclose : ∀ h s, (L.close h s).1 = .ok ())
    (hstr : d.order_string = Hdf5.orderText d.order)
    (hn : 0 ≤ d.npoints ∧ d.npoints < 2147483648) (hcls : d.cls = 1)
    (hun : ¬ ((d.order = 0 ∨ d.order = 1) ∧ (d.size = 4 ∨ d.size = 8)))
    (hlit : (d.size = 4 → ptrOfOrder d.order ≠ env.litLittle) ∧
      (d.size = 8 → ptrOfOrder d.order ≠ env.litBig)) :
    ∃ v w1, self.getDatadoubleTry L env w = (.returned v, w1) ∧ v.length = d.npoints.toNat ∧
      w1.out = w.out ++ ["Did not find data type"] ∧ readRequests w1.trace = readRequests w.trace := by
  unfold LoadH5.getDatadoubleTry Library.doH5File Library.doOpenDataSet
  rw [bind_call_ok _ hfile, bind_call_ok _ hds]
  simp only [ne_eq, hcls, not_true_eq_false, if_false]
  rw [bind_apply, pure_apply]
  simp only
  rw [bind_apply, newArray_of_nonneg env 8 _ (by rw [toInt32_of_lt _ hn.1 hn.2]; exact hn.1)]
  simp only [hstr, orderText_little, orderText_big, or_self]
  have c1 : ¬ (ptrOfOrder d.order = env.litLittle ∧ d.size = 4) := fun h => hlit.1 h.2 h.1
  have c2 : ¬ (d.order = 0 ∧ d.size = 8) := fun h => hun ⟨Or.inl h.1, by simp [h.2]⟩
  have c3 : ¬ (d.order = 1 ∧ d.size = 4) := fun h => hun ⟨Or.inr h.1, by simp [h.2]⟩
  have c4 : ¬ (ptrOfOrder d.order = env.litBig ∧ d.size = 8) := fun h => hlit.2 h.2 h.1
  rw [if_neg c1, if_neg c2, if_neg c3, if_neg c4]
  rw [bind_apply]
  simp only [cout]
  rw [bind_apply, pure_apply]
  simp only
  obtain ⟨s4, h4⟩ := closes_returned L hclose
    (elements env 8 (freshArray env 8 (toInt32 d.npoints).toNat) (toInt32 d.npoints).toNat)
    ⟨s2, w.out ++ ["Did not find data type"], w.err,
      w.trace ++ [(.H5File self.filename .H5F_ACC_RDONLY, none)]
        ++ [(.openDataSet self.filename self.varName, none)]⟩
  refine ⟨_, _, h4, ?_, rfl, ?_⟩
  · rw [elements_length, toInt32_of_lt _ hn.1 hn.2]
  · simp [readRequests, List.filterMap_append]

end readers

/-! ## C7: an unrecognised width or byte order does not abort the read -/

/-- C7 (amended). Let the file open, `openDataSet` return the description `d` with the text
of `getOrder` for its byte order, the `close` calls succeed, and the dataset have fewer
than `2 ^ 31` elements.  If `d` is of integer class and its (width, byte order) is not
one of the widths 1, 2, 4, 8 in little- or big-endian order, `getDataint` prints
`Did not find data type`, issues no read, and returns a sequence with as many elements as
the dataset.  The same holds for `getDatafloat` on a float-class dataset whose width is
neither 4 nor 8 or whose order is neither little nor big endian, and for `getDatadouble`
when moreover the pointer `(char*)order` is not the address of the string literal it is
compared with. -/
theorem unrecognised_type_returns {σ : Type} (L : Library σ) (env : Env) (self : LoadH5)
    (w : World σ) (s1 s2 : σ) (d : DataSetInfo)
    (hfile : L.H5File self.filename .H5F_ACC_RDONLY w.lib = (.ok (), s1))
    (hds : L.openDataSet self.filename self.varName s1 = (.ok d, s2))
    (hclose : ∀ h s, (L.close h s).1 = .ok ())
    (hstr : d.order_string = Hdf5.orderText d.order)
    (hn : 0 ≤ d.npoints ∧ d.npoints < 2147483648) :
    (d.cls = 0 →
      ¬ ((d.order = 0 ∨ d.order = 1) ∧ (d.size = 1 ∨ d.size = 2 ∨ d.size = 4 ∨ d.size = 8)) →
      ∃ v w1, self.getDataint L env w = (.returned v, w1) ∧ v.length = d.npoints.toNat ∧
        w1.out = w.out ++ ["Did not find data type"] ∧
        readRequests w1.trace = readRequests w.trace) ∧
    (d.cls = 1 → ¬ ((d.order = 0 ∨ d.order = 1) ∧ (d.size = 4 ∨ d.size = 8)) →
      (∃ v w1, self.getDatafloat L env w = (.returned v, w1) ∧ v.length = d.npoints.toNat ∧
        w1.out = w.out ++ ["Did not find data type"] ∧
        readRequests w1.trace = readRequests w.trace) ∧
      ((d.size = 4 → ptrOfOrder d.order ≠ env.litLittle) ∧
          (d.size = 8 → ptrOfOrder d.order ≠ env.litBig) →
        ∃ v w1, self.getDatadouble L env w = (.returned v, w1) ∧ v.length = d.npoints.toNat ∧
          w1.out = w.out ++ ["Did not find data type"] ∧
          readRequests w1.trace = readRequests w.trace)) := by
  refine ⟨?_, ?_⟩
  · intro hcls hun
    obtain ⟨v, w1, h, hl, ho, ht⟩ :=
      getDataintTry_unrecognised L env self w s1 s2 d hfile hds hclose hstr hn hcls hun
    exact ⟨v, w1, catchEmpty_of_returned _ _ _ _ h, hl, ho, ht⟩
  · intro hcls hun
    refine ⟨?_, ?_⟩
    · obtain ⟨v, w1, h, hl, ho, ht⟩ :=
        getDatafloatTry_unrecognised L env self w s1 s2 d hfile hds hclose hstr hn hcls hun
      exact ⟨v, w1, catchEmpty_of_returned _ _ _ _ h, hl, ho, ht⟩
    · intro hlit
      obtain ⟨v, w1, h, hl, ho, ht⟩ :=
        getDatadoubleTry_unrecognised L env self w s1 s2 d hfile hds hclose hstr hn hcls hun hlit
      exact ⟨v, w1, catchEmpty_of_returned _ _ _ _ h, hl, ho, ht⟩

/-- C7 at concrete inputs: a dataset of two 3-byte integers read with `getDataint`, and a
dataset of two 4-byte floats in VAX order read with `getDatafloat` and `getDatadouble`. -/
theorem unrecognised_type_returns_witness :
    (∃ v w1, (LoadH5.mk "/x" "f.h5").getDataint Hdf5.library littleHost (World.start oddIntDisk)
        = (.returned v, w1) ∧ v.length = (2 : Int).toNat ∧
        w1.out = (World.start oddIntDisk).out ++ ["Did not find data type"] ∧
        readRequests w1.trace = readRequests (World.start oddIntDisk).trace) ∧
    (∃ v w1, (LoadH5.mk "/x" "f.h5").getDatafloat Hdf5.library littleHost
        (World.start vaxFloatDisk) = (.returned v, w1) ∧ v.length = (2 : Int).toNat ∧
        w1.out = (World.start vaxFloatDisk).out ++ ["Did not find data type"] ∧
        readRequests w1.trace = readRequests (World.start vaxFloatDisk).trace) ∧
    (∃ v w1, (LoadH5.mk "/x" "f.h5").getDatadouble Hdf5.library littleHost
        (World.start vaxFloatDisk) = (.returned v, w1) ∧ v.length = (2 : Int).toNat ∧
        w1.out = (World.start vaxFloatDisk).out ++ ["Did not find data type"] ∧
        readRequests w1.trace = readRequests (World.start vaxFloatDisk).trace) :=
  have hi := unrecognised_type_returns Hdf5.library littleHost (LoadH5.mk "/x" "f.h5")
    (World.start oddIntDisk) oddIntDisk oddIntDisk
    ⟨0, 3, 0, "Little endian byte ordering (0)", 2⟩ rfl rfl (fun _ _ => rfl) rfl (by decide)
  have hf := unrecognised_type_returns Hdf5.library littleHost (LoadH5.mk "/x" "f.h5")
    (World.start vaxFloatDisk) vaxFloatDisk vaxFloatDisk
    ⟨1, 4, 2, "VAX mixed byte ordering (2)", 2⟩ rfl rfl (fun _ _ => rfl) rfl (by decide)
  ⟨hi.1 rfl (by decide), (hf.2 rfl (by decide)).1, (hf.2 rfl (by decide)).2 (by decide)⟩

/-- C7 as stated fails where the element count does not fit the `int` that holds it: for
the dataset of `2 ^ 32` three-byte integers, `const int npts` is 0, and `getDataint`
returns the empty sequence, not one of `2 ^ 32` elements. -/
theorem unrecognised_type_length_counterexample :
    ((LoadH5.mk "/x" "f.h5").getDataint Hdf5.library littleHost (World.start hugeDisk)).1
      = .returned [] ∧
    ¬ ∃ v : List Int, ((LoadH5.mk "/x" "f.h5").getDataint Hdf5.library littleHost
      (World.start hugeDisk)).1 = .returned v ∧ v.length = 4294967296 := by
  have h : ((LoadH5.mk "/x" "f.h5").getDataint Hdf5.library littleHost
      (World.start hugeDisk)).1 = .returned [] := rfl
  refine ⟨h, ?_⟩
  rintro ⟨v, hv, hl⟩
  rw [h] at hv
  cases hv
  simp at hl


/-! ## C8 and C9: what the readers do with recognised representations -/

/-- C8 fails on the code: for the `IEEE_F32LE` dataset of `floatDisk` (width 4, little
endian) `getDatadouble` takes the `Did not find data type` branch and issues no read at
all, on every host where the string literal of the first test is not at the null address
(`(char*)order` is the null pointer for `H5T_ORDER_LE`).  The result is the uninitialised
array. -/
theorem getDatadouble_misses_F32LE (env : Env) (hlit : env.litLittle ≠ 0) :
    ((LoadH5.mk "/x" "f.h5").getDatadouble Hdf5.library env (World.start floatDisk)).2.out
      = ["Did not find data type"] ∧
    readRequests ((LoadH5.mk "/x" "f.h5").getDatadouble Hdf5.library env
      (World.start floatDisk)).2.trace = [] ∧
    ((LoadH5.mk "/x" "f.h5").getDatadouble Hdf5.library env (World.start floatDisk)).1
      = .returned (elements env 8 (freshArray env 8 1) 1) := by
  have hfile : Hdf5.library.H5File "f.h5" .H5F_ACC_RDONLY (World.start floatDisk).lib
      = (.ok (), floatDisk) := rfl
  have hds : Hdf5.library.openDataSet "f.h5" "/x" floatDisk
      = (.ok ⟨1, 4, 0, "Little endian byte ordering (0)", 1⟩, floatDisk) := rfl
  have hbody : (LoadH5.mk "/x" "f.h5").getDatadoubleTry Hdf5.library env (World.start floatDisk)
      = (.returned (elements env 8 (freshArray env 8 1) 1),
          ⟨floatDisk, ["Did not find data type"], [],
            [(.H5File "f.h5" .H5F_ACC_RDONLY, none), (.openDataSet "f.h5" "/x", none),
             (.close .dataspace, none), (.close .datatype, none), (.close .dataset, none),
             (.close .file, none)]⟩) := by
    unfold LoadH5.getDatadoubleTry Library.doH5File Library.doOpenDataSet
    rw [bind_call_ok _ hfile, bind_call_ok _ hds]
    have h0 : ptrOfOrder 0 = 0 := by decide
    have c1 : ¬ (0 = env.litLittle) := fun h => hlit h.symm
    have c2 : ¬ ((4 : Nat) = 8) := by decide
    have c3 : ¬ ("Little endian byte ordering (0)" = "Big endian byte ordering (1)") := by simp
    have c4 : ¬ ((0 : Int) = 1) := by decide
    simp only [ne_eq, not_true_eq_false, if_false, h0, c1, c2, c3, c4, false_and, and_false,
      or_self]
    rfl
  unfold LoadH5.getDatadouble
  rw [catchEmpty_of_returned _ _ _ _ hbody]
  exact ⟨rfl, rfl, rfl⟩

/-- The failing input of C8 on the little-endian host. -/
theorem getDatadouble_misses_F32LE_witness :
    ((LoadH5.mk "/x" "f.h5").getDatadouble Hdf5.library littleHost (World.start floatDisk)).2.out
      = ["Did not find data type"] :=
  (getDatadouble_misses_F32LE littleHost (by decide)).1



/-- C9 fails on the code: for the dataset of the four 1-byte integers 1, 2, 3, 4 the read
is issued with the 1-byte memory type `STD_I8LE`, so the library stores four bytes at the
start of the `int` array and `getDataint` returns, on every host, a first element that
packs them (`0x04030201` or `0x01020304`) followed by what the rest of the array held,
not the sequence 1, 2, 3, 4. -/
theorem getDataint_packs_narrow_elements (env : Env) :
    readRequests ((LoadH5.mk "/x" "f.h5").getDataint Hdf5.library env
      (World.start bytesDisk)).2.trace = [PredType.STD_I8LE] ∧
    (∃ rest, ((LoadH5.mk "/x" "f.h5").getDataint Hdf5.library env (World.start bytesDisk)).1
      = .returned ((if env.bigEndian then 16909060 else 67305985) :: rest)) ∧
    ((LoadH5.mk "/x" "f.h5").getDataint Hdf5.library env (World.start bytesDisk)).1
      ≠ .returned [1, 2, 3, 4] := by
  have hfile : Hdf5.library.H5File "f.h5" .H5F_ACC_RDONLY (World.start bytesDisk).lib
      = (.ok (), bytesDisk) := rfl
  have hds : Hdf5.library.openDataSet "f.h5" "/x" bytesDisk
      = (.ok ⟨0, 1, 0, "Little endian byte ordering (0)", 4⟩, bytesDisk) := rfl
  have hread : Hdf5.library.read "f.h5" "/x" PredType.STD_I8LE bytesDisk
      = (.ok [1, 2, 3, 4], bytesDisk) := rfl
  have hlen : (freshArray env 4 4).length = 16 := by simp [freshArray]
  have hbody : (LoadH5.mk "/x" "f.h5").getDataintTry Hdf5.library env (World.start bytesDisk)
      = (.returned ((elements env 4 ([1, 2, 3, 4] ++ (freshArray env 4 4).drop 4) 4).map
            (fun (bits : Nat) => toInt32 (Int.ofNat bits))),
          ⟨bytesDisk, [], [],
            [(.H5File "f.h5" .H5F_ACC_RDONLY, none), (.openDataSet "f.h5" "/x", none),
             (.read "f.h5" "/x" PredType.STD_I8LE, none),
             (.close .dataspace, none), (.close .datatype, none), (.close .dataset, none),
             (.close .file, none)]⟩) := by
    unfold LoadH5.getDataintTry Library.doH5File Library.doOpenDataSet
    rw [bind_call_ok _ hfile, bind_call_ok _ hds]
    simp only [ne_eq, not_true_eq_false, if_false, true_or, and_self, if_true]
    rw [bind_apply, pure_apply]
    simp only
    rw [bind_apply, newArray_of_nonneg env 4 _ (by decide)]
    simp only
    unfold readInto Library.doRead
    rw [bind_apply, bind_call_ok _ hread]
    have h4 : (toInt32 4).toNat = 4 := by decide
    simp only [h4, hlen, List.length_cons, List.length_nil]
    rfl
  have hfirst : toInt32 (Int.ofNat (hostValue env [1, 2, 3, 4]))
      = if env.bigEndian then 16909060 else 67305985 := by
    unfold hostValue
    cases env.bigEndian <;> decide
  have hres : ((LoadH5.mk "/x" "f.h5").getDataint Hdf5.library env (World.start bytesDisk)).1
      = .returned ((if env.bigEndian then 16909060 else 67305985) ::
          (elements env 4 (([1, 2, 3, 4] ++ (freshArray env 4 4).drop 4).drop 4) 3).map
            (fun (bits : Nat) => toInt32 (Int.ofNat bits))) := by
    unfold LoadH5.getDataint
    rw [catchEmpty_of_returned _ _ _ _ hbody, ← hfirst]
    rfl
  refine ⟨?_, ⟨_, hres⟩, ?_⟩
  · unfold LoadH5.getDataint
    rw [catchEmpty_of_returned _ _ _ _ hbody]
    rfl
  · rw [hres]
    cases env.bigEndian <;> simp


open Hdf5

/-! ## Bytes and bit patterns -/

theorem leBytes_length (n v : Nat) : (leBytes n v).length = n := by
  induction n generalizing v with
  | zero => rfl
  | succ k ih => simp [leBytes, ih]

theorem leBytes_lt (n v : Nat) : ∀ b ∈ leBytes n v, b < 256 := by
  induction n generalizing v with
  | zero => intro b hb; simp [leBytes] at hb
  | succ k ih =>
    intro b hb
    simp only [leBytes, List.mem_cons] at hb
    rcases hb with rfl | hb
    · exact Nat.mod_lt _ (by decide)
    · exact ih _ b hb

theorem leValue_leBytes (n v : Nat) : leValue (leBytes n v) = v % 256 ^ n := by
  induction n generalizing v with
  | zero => simp [leBytes, leValue, Nat.mod_one]
  | succ k ih =>
    simp only [leBytes, leValue, ih, Nat.mod_mod]
    rw [pow_succ, Nat.mul_comm (256 ^ k) 256, Nat.mod_mul]

theorem leBytes_leValue (bs : List Nat) (h : ∀ b ∈ bs, b < 256) :
    leBytes bs.length (leValue bs) = bs := by
  induction bs with
  | nil => rfl
  | cons b rest ih =>
    have hb : b < 256 := h b (by simp)
    have hrest := ih (fun x hx => h x (by simp [hx]))
    simp only [List.length_cons, leBytes, leValue]
    have h1 : (b % 256 + 256 * leValue rest) % 256 = b := by omega
    have h2 : (b % 256 + 256 * leValue rest) / 256 = leValue rest := by omega
    rw [h1, h2, hrest]

theorem hostBytes_length (env : Env) (n v : Nat) : (hostBytes env n v).length = n := by
  unfold hostBytes
  split <;> simp [leBytes_length]

theorem hostBytes_lt (env : Env) (n v : Nat) : ∀ b ∈ hostBytes env n v, b < 256 := by
  intro b hb
  unfold hostBytes at hb
  split at hb
  · exact leBytes_lt n v b (List.mem_reverse.mp hb)
  · exact leBytes_lt n v b hb

theorem hostValue_hostBytes (env : Env) (n v : Nat) (hv : v < 256 ^ n) :
    hostValue env (hostBytes env n v) = v := by
  unfold hostValue hostBytes
  split <;> simp [leValue_leBytes, Nat.mod_eq_of_lt hv]

/-- The array `a` of `writeData`: its length and its bytes. -/
theorem buffer_length (env : Env) (n : Nat) (v : List Nat) :
    ((v.map (hostBytes env n)).flatten).length = v.length * n := by
  induction v with
  | nil => simp
  | cons x rest ih =>
    simp only [List.map_cons, List.flatten_cons, List.length_append, hostBytes_length, ih,
      List.length_cons]
    ring

theorem buffer_lt (env : Env) (n : Nat) (v : List Nat) :
    ∀ b ∈ (v.map (hostBytes env n)).flatten, b < 256 := by
  intro b hb
  simp only [List.mem_flatten, List.mem_map] at hb
  obtain ⟨l, ⟨x, -, rfl⟩, hbl⟩ := hb
  exact hostBytes_lt env n x b hbl

/-- Reading the elements of the array back gives the values it was built from. -/
theorem elements_buffer (env : Env) (n : Nat) (v : List Nat) (hv : ∀ x ∈ v, x < 256 ^ n) :
    elements env n ((v.map (hostBytes env n)).flatten) v.length = v := by
  induction v with
  | nil => rfl
  | cons x rest ih =>
    simp only [List.map_cons, List.flatten_cons, List.length_cons, elements]
    have hl := hostBytes_length env n x
    rw [List.take_left' hl, List.drop_left' hl, hostValue_hostBytes env n x (hv x (by simp)),
      ih (fun y hy => hv y (by simp [hy]))]

/-! ## The reference library on data stored and read with one type -/

theorem chunks_convert_same (t : PredType) (ho : t.order = 0) (hc : t.cls = 1) (n : Nat) :
    ∀ bytes : List Nat, bytes.length = n * t.size → (∀ b ∈ bytes, b < 256) →
      ((chunks t.size bytes n).map (convertElem t t)).flatten = bytes := by
  induction n with
  | zero =>
    intro bytes hl _
    have : bytes = [] := List.length_eq_zero.mp (by simpa using hl)
    subst this
    rfl
  | succ k ih =>
    intro bytes hl hb
    have hlen : (bytes.take t.size).length = t.size := by
      rw [List.length_take, hl]
      have : t.size ≤ (k + 1) * t.size := Nat.le_mul_of_pos_left _ (by omega)
      omega
    have hdrop : (bytes.drop t.size).length = k * t.size := by
      rw [List.length_drop, hl, Nat.succ_mul]; omega
    have helem : convertElem t t (bytes.take t.size) = bytes.take t.size := by
      unfold convertElem encode decode
      have h1 : ¬ t.cls = 0 := by omega
      have h2 : ¬ t.order = 1 := by omega
      rw [if_neg h1, if_neg h2, if_neg h2]
      have := leBytes_leValue (bytes.take t.size)
        (fun b hbm => hb b (List.mem_of_mem_take hbm))
      rw [hlen] at this
      exact this
    simp only [chunks, List.map_cons, List.flatten_cons, helem]
    rw [ih (bytes.drop t.size) hdrop (fun b hbm => hb b (List.mem_of_mem_drop hbm)),
      List.take_append_drop]

/-- Between equal little-endian floating-point types the library copies the bytes. -/
theorem convert_same (t : PredType) (ho : t.order = 0) (hc : t.cls = 1) (hs : 0 < t.size)
    (n : Nat) (bytes : List Nat) (hl : bytes.length = n * t.size) (hb : ∀ b ∈ bytes, b < 256) :
    convert t t n bytes = some bytes := by
  unfold convert convertible
  simp [ho, hc, hs, hl, chunks_convert_same t ho hc n bytes hl hb]

theorem disk_set_same (d : Disk) (file : String) (img : Image) :
    (d.set file img) file = some img := by
  simp [Disk.set]

theorem image_insert_same (img : Image) (p : List (List Char)) (o : Obj) :
    (img.insert p o) p = some o := by
  simp [Image.insert]

/-- Creating a dataset at a free path and writing it with the type it was created with
stores the buffer, and a later open and read with that type give it back. -/
theorem create_write_read (t : PredType) (ho : t.order = 0) (hc : t.cls = 1) (hs : 0 < t.size)
    (file name : String) (a : List Nat) (npts : Nat) (d : Disk) (img : Image)
    (hd : d file = some img) (hfree : img.canCreate (pathOf name) = true)
    (hl : a.length = npts * t.size) (hb : ∀ b ∈ a, b < 256) :
    ∃ d1 d2, createDataSet file name t npts d = (.ok (), d1) ∧
      Hdf5.write file name a t d1 = (.ok (), d2) ∧
      H5File file .H5F_ACC_RDONLY d2 = (.ok (), d2) ∧
      openDataSet file name d2 = (.ok ⟨t.cls, t.size, t.order, orderText t.order, npts⟩, d2) ∧
      Hdf5.read file name t d2 = (.ok a, d2) := by
  refine ⟨d.set file (img.insert (pathOf name)
      (.dataset ⟨t, npts, List.replicate (npts * t.size) 0⟩)),
    (d.set file (img.insert (pathOf name)
      (.dataset ⟨t, npts, List.replicate (npts * t.size) 0⟩))).set file
      ((img.insert (pathOf name) (.dataset ⟨t, npts, List.replicate (npts * t.size) 0⟩)).insert
        (pathOf name) (.dataset ⟨t, npts, a⟩)), ?_, ?_, ?_, ?_, ?_⟩
  · simp [createDataSet, hd, hfree]
  · simp [Hdf5.write, disk_set_same, image_insert_same, convert_same t ho hc hs npts a hl hb]
  · simp [H5File, disk_set_same]
  · simp [openDataSet, disk_set_same, image_insert_same]
  · simp [Hdf5.read, disk_set_same, image_insert_same, convert_same t ho hc hs npts a hl hb]

section recognised
variable {σ : Type}

theorem freshArray_length (env : Env) (size n : Nat) : (freshArray env size n).length = size * n := by
  simp [freshArray]

/-- A read that fills the whole array: the elements of the result are those of the bytes
the library stored. -/
theorem readInto_full (L : Library σ) (env : Env) (file name : String) (mtype : PredType)
    (size n : Nat) (w : World σ) (bytes : List Nat) (s : σ)
    (hread : L.read file name mtype w.lib = (.ok bytes, s)) (hlen : bytes.length = size * n) :
    readInto L file name (freshArray env size n) mtype w
      = (.returned bytes, ⟨s, w.out, w.err, w.trace ++ [(.read file name mtype, none)]⟩) := by
  unfold readInto Library.doRead
  rw [bind_call_ok _ hread]
  simp only [freshArray_length, hlen, le_refl, if_true]
  rw [pure_apply, List.drop_eq_nil_of_le (by rw [freshArray_length]), List.append_nil]

/-- The reader `getDatafloat` on a 4-byte little-endian dataset: the read is issued with
`IEEE_F32LE` and the result holds the elements of the bytes read. -/
theorem getDatafloat_F32LE (L : Library σ) (env : Env) (self : LoadH5) (w : World σ)
    (s1 s2 s3 : σ) (str : String) (n : Int) (bytes : List Nat)
    (hfile : L.H5File self.filename .H5F_ACC_RDONLY w.lib = (.ok (), s1))
    (hds : L.openDataSet self.filename self.varName s1 = (.ok ⟨1, 4, 0, str, n⟩, s2))
    (hread : L.read self.filename self.varName PredType.IEEE_F32LE s2 = (.ok bytes, s3))
    (hclose : ∀ h s, (L.close h s).1 = .ok ())
    (hn : 0 ≤ n ∧ n < 2147483648) (hlen : bytes.length = 4 * n.toNat) :
    (self.getDatafloat L env w).1 = .returned (elements env 4 bytes n.toNat) := by
  have hbody : ∃ w1, self.getDatafloatTry L env w
      = (.returned (elements env 4 bytes n.toNat), w1) := by
    unfold LoadH5.getDatafloatTry Library.doH5File Library.doOpenDataSet
    rw [bind_call_ok _ hfile, bind_call_ok _ hds]
    simp only [ne_eq, not_true_eq_false, if_false, or_true, and_self, if_true,
      toInt32_of_lt n hn.1 hn.2]
    rw [bind_apply, pure_apply]
    simp only
    rw [bind_apply, newArray_of_nonneg env 4 _ hn.1]
    simp only
    rw [bind_apply, readInto_full L env _ _ _ 4 n.toNat _ bytes s3 hread hlen]
    simp only
    obtain ⟨s4, h4⟩ := closes_returned L hclose (elements env 4 bytes n.toNat)
      ⟨s3, w.out, w.err, w.trace ++ [(.H5File self.filename .H5F_ACC_RDONLY, none)]
        ++ [(.openDataSet self.filename self.varName, none)]
        ++ [(.read self.filename self.varName PredType.IEEE_F32LE, none)]⟩
    exact ⟨_, h4⟩
  obtain ⟨w1, hb⟩ := hbody
  unfold LoadH5.getDatafloat
  rw [catchEmpty_of_returned _ _ _ _ hb]

/-- The reader `getDatadouble` on an 8-byte little-endian dataset: the read is issued with
`IEEE_F64LE` and the result holds the elements of the bytes read. -/
theorem getDatadouble_F64LE (L : Library σ) (env : Env) (self : LoadH5) (w : World σ)
    (s1 s2 s3 : σ) (str : String) (n : Int) (bytes : List Nat)
    (hfile : L.H5File self.filename .H5F_ACC_RDONLY w.lib = (.ok (), s1))
    (hds : L.openDataSet self.filename self.varName s1 = (.ok ⟨1, 8, 0, str, n⟩, s2))
    (hread : L.read self.filename self.varName PredType.IEEE_F64LE s2 = (.ok bytes, s3))
    (hclose : ∀ h s, (L.close h s).1 = .ok ())
    (hn : 0 ≤ n ∧ n < 2147483648) (hlen : bytes.length = 8 * n.toNat) :
    (self.getDatadouble L env w).1 = .returned (elements env 8 bytes n.toNat) := by
  have hbody : ∃ w1, self.getDatadoubleTry L env w
      = (.returned (elements env 8 bytes n.toNat), w1) := by
    unfold LoadH5.getDatadoubleTry Library.doH5File Library.doOpenDataSet
    rw [bind_call_ok _ hfile, bind_call_ok _ hds]
    have c1 : ¬ ((8 : Nat) = 4) := by decide
    simp only [ne_eq, not_true_eq_false, if_false, or_true, and_self, if_true, c1, and_false,
      toInt32_of_lt n hn.1 hn.2]
    rw [bind_apply, pure_apply]
    simp only
    rw [bind_apply, newArray_of_nonneg env 8 _ hn.1]
    simp only
    rw [bind_apply, readInto_full L env _ _ _ 8 n.toNat _ bytes s3 hread hlen]
    simp only
    obtain ⟨s4, h4⟩ := closes_returned L hclose (elements env 8 bytes n.toNat)
      ⟨s3, w.out, w.err, w.trace ++ [(.H5File self.filename .H5F_ACC_RDONLY, none)]
        ++ [(.openDataSet self.filename self.varName, none)]
        ++ [(.read self.filename self.varName PredType.IEEE_F64LE, none)]⟩
    exact ⟨_, h4⟩
  obtain ⟨w1, hb⟩ := hbody
  unfold LoadH5.getDatadouble
  rw [catchEmpty_of_returned _ _ _ _ hb]

/-- A read that delivers more bytes than the array holds: the call is issued and the
behaviour is undefined. -/
theorem readInto_overflow (L : Library σ) (env : Env) (file name : String) (mtype : PredType)
    (size n : Nat) (w : World σ) (bytes : List Nat) (s : σ)
    (hread : L.read file name mtype w.lib = (.ok bytes, s)) (hlen : size * n < bytes.length) :
    readInto L file name (freshArray env size n) mtype w
      = (.undefinedBehaviour, ⟨s, w.out, w.err, w.trace ++ [(.read file name mtype, none)]⟩) := by
  unfold readInto Library.doRead
  rw [bind_call_ok _ hread]
  simp only [freshArray_length]
  rw [if_neg (by omega)]

/-- The element count is held in `const int npts`: for the float-class dataset of `2 ^ 31`
elements `npts` is negative and `new float[npts]` throws `std::bad_array_new_length`,
which neither handler of `getDatafloat` catches. -/
theorem getDatafloat_large_count_throws :
    ((LoadH5.mk "/x" "f.h5").getDatafloat Hdf5.library littleHost
        (World.start largeFloatDisk)).1 = .thrown .bad_array_new_length := rfl

end recognised

/-! ## C4: the class check -/

/-- C4 fails on the code.  Let the file open and `openDataSet` return the description `d`
of the dataset.  The mismatch half holds: if the class of `d` is not `H5T_INTEGER` (0),
`getDataint` writes the mismatch line to standard output and ends in `exit(1)`, and so do
`getDatafloat` and `getDatadouble` when the class is not `H5T_FLOAT` (1).  The converse
does not hold: when the class is `H5T_FLOAT`, the elements are 8 bytes wide in
little-endian order, there are between 1 and `2 ^ 31 - 1` of them and the library delivers
them in the memory type of the read, `getDatafloat` passes the class check and reads with
`IEEE_F64LE` into its array of `npts` 4-byte `float`s.  The library stores `8 * npts`
bytes in an array of `4 * npts`: the run ends in undefined behaviour right after the read,
not in a return.  `getDataint` does the same with `STD_I64LE` on 8-byte integers. -/
theorem matching_class_overflows_buffer {σ : Type} (L : Library σ) (env : Env) (self : LoadH5)
    (w : World σ) (s1 s2 s3 : σ) (d : DataSetInfo) (bytes : List Nat)
    (hfile : L.H5File self.filename .H5F_ACC_RDONLY w.lib = (.ok (), s1))
    (hds : L.openDataSet self.filename self.varName s1 = (.ok d, s2)) :
    (d.cls ≠ 0 → (self.getDataint L env w).1 = .exited 1 ∧
      (self.getDataint L env w).2.out
        = w.out ++ [self.varName ++ " is not an int... you can't save this as an int."]) ∧
    (d.cls ≠ 1 → (self.getDatafloat L env w).1 = .exited 1 ∧
      (self.getDatafloat L env w).2.out
        = w.out ++ [self.varName ++ " is not a float... you can't save this as a float."]) ∧
    (d.cls ≠ 1 → (self.getDatadouble L env w).1 = .exited 1 ∧
      (self.getDatadouble L env w).2.out
        = w.out ++ [self.varName ++ " is not a float... you can't save this as a float."]) ∧
    (d.cls = 1 ∧ d.size = 8 ∧ d.order = 0 ∧ 0 < d.npoints ∧ d.npoints < 2147483648 →
      L.read self.filename self.varName PredType.IEEE_F64LE s2 = (.ok bytes, s3) →
      bytes.length = 8 * d.npoints.toNat →
      self.getDatafloat L env w = (.undefinedBehaviour,
        ⟨s3, w.out, w.err, w.trace ++ [(.H5File self.filename .H5F_ACC_RDONLY, none)]
          ++ [(.openDataSet self.filename self.varName, none)]
          ++ [(.read self.filename self.varName PredType.IEEE_F64LE, none)]⟩)) ∧
    (d.cls = 0 ∧ d.size = 8 ∧ d.order = 0 ∧ 0 < d.npoints ∧ d.npoints < 2147483648 →
      L.read self.filename self.varName PredType.STD_I64LE s2 = (.ok bytes, s3) →
      bytes.length = 8 * d.npoints.toNat →
      self.getDataint L env w = (.undefinedBehaviour,
        ⟨s3, w.out, w.err, w.trace ++ [(.H5File self.filename .H5F_ACC_RDONLY, none)]
          ++ [(.openDataSet self.filename self.varName, none)]
          ++ [(.read self.filename self.varName PredType.STD_I64LE, none)]⟩)) := by
  have hi := getDataintTry_class L env self w s1 s2 d hfile hds
  have hf := getDatafloatTry_class L env self w s1 s2 d hfile hds
  have hd := getDatadoubleTry_class L env self w s1 s2 d hfile hds
  have c1 : ¬ ((8 : Nat) = 1) := by decide
  have c2 : ¬ ((8 : Nat) = 2) := by decide
  have c4 : ¬ ((8 : Nat) = 4) := by decide
  refine ⟨?_, ?_, ?_, ?_, ?_⟩
  · intro hc
    unfold LoadH5.getDataint
    rw [catchEmpty_of_exited _ _ _ _ (hi.1 hc)]
    exact ⟨rfl, rfl⟩
  · intro hc
    unfold LoadH5.getDatafloat
    rw [catchEmpty_of_exited _ _ _ _ (hf.1 hc)]
    exact ⟨rfl, rfl⟩
  · intro hc
    unfold LoadH5.getDatadouble
    rw [catchEmpty_of_exited _ _ _ _ (hd.1 hc)]
    exact ⟨rfl, rfl⟩
  · rintro ⟨hcls, hsize, horder, hpos, hlt⟩ hread hlen
    obtain ⟨cls, size, order, str, n⟩ := d
    simp only at hcls hsize horder hpos hlt hread hlen
    subst hcls hsize horder
    have hbody : self.getDatafloatTry L env w = (.undefinedBehaviour,
        ⟨s3, w.out, w.err, w.trace ++ [(.H5File self.filename .H5F_ACC_RDONLY, none)]
          ++ [(.openDataSet self.filename self.varName, none)]
          ++ [(.read self.filename self.varName PredType.IEEE_F64LE, none)]⟩) := by
      unfold LoadH5.getDatafloatTry Library.doH5File Library.doOpenDataSet
      rw [bind_call_ok _ hfile, bind_call_ok _ hds]
      simp only [ne_eq, not_true_eq_false, if_false, or_true, and_self, if_true, c4, and_false,
        toInt32_of_lt n (le_of_lt hpos) hlt]
      rw [bind_apply, pure_apply]
      simp only
      rw [bind_apply, newArray_of_nonneg env 4 _ (le_of_lt hpos)]
      simp only
      rw [bind_apply,
        readInto_overflow L env _ _ _ 4 n.toNat _ bytes s3 hread (by omega)]
    unfold LoadH5.getDatafloat LoadH5.catchEmpty
    rw [hbody]
  · rintro ⟨hcls, hsize, horder, hpos, hlt⟩ hread hlen
    obtain ⟨cls, size, order, str, n⟩ := d
    simp only at hcls hsize horder hpos hlt hread hlen
    subst hcls hsize horder
    have hbody : self.getDataintTry L env w = (.undefinedBehaviour,
        ⟨s3, w.out, w.err, w.trace ++ [(.H5File self.filename .H5F_ACC_RDONLY, none)]
          ++ [(.openDataSet self.filename self.varName, none)]
          ++ [(.read self.filename self.varName PredType.STD_I64LE, none)]⟩) := by
      unfold LoadH5.getDataintTry Library.doH5File Library.doOpenDataSet
      rw [bind_call_ok _ hfile, bind_call_ok _ hds]
      simp only [ne_eq, not_true_eq_false, if_false, or_true, and_self, if_true, c1, c2, c4,
        and_false, toInt32_of_lt n (le_of_lt hpos) hlt]
      rw [bind_apply, pure_apply]
      simp only
      rw [bind_apply, newArray_of_nonneg env 4 _ (le_of_lt hpos)]
      simp only
      rw [bind_apply,
        readInto_overflow L env _ _ _ 4 n.toNat _ bytes s3 hread (by omega)]
    unfold LoadH5.getDataint LoadH5.catchEmpty
    rw [hbody]

/-- C4 at concrete inputs.  The dataset `/x` of `doubleDisk` has class `H5T_FLOAT`:
`getDataint` exits with status 1, and `getDatafloat`, for which the class matches, ends
in undefined behaviour after the read with `IEEE_F64LE`.  The dataset `/x` of `longDisk`
has class `H5T_INTEGER`: `getDatafloat` exits with status 1, and `getDataint` ends in
undefined behaviour after the read with `STD_I64LE`. -/
theorem matching_class_overflows_buffer_witness :
    (((LoadH5.mk "/x" "f.h5").getDataint Hdf5.library littleHost (World.start doubleDisk)).1
        = .exited 1 ∧
      (LoadH5.mk "/x" "f.h5").getDatafloat Hdf5.library littleHost (World.start doubleDisk)
        = (.undefinedBehaviour,
          ⟨doubleDisk, [], [], [] ++ [(.H5File "f.h5" .H5F_ACC_RDONLY, none)]
            ++ [(.openDataSet "f.h5" "/x", none)]
            ++ [(.read "f.h5" "/x" PredType.IEEE_F64LE, none)]⟩)) ∧
    (((LoadH5.mk "/x" "f.h5").getDatafloat Hdf5.library littleHost (World.start longDisk)).1
        = .exited 1 ∧
      (LoadH5.mk "/x" "f.h5").getDataint Hdf5.library littleHost (World.start longDisk)
        = (.undefinedBehaviour,
          ⟨longDisk, [], [], [] ++ [(.H5File "f.h5" .H5F_ACC_RDONLY, none)]
            ++ [(.openDataSet "f.h5" "/x", none)]
            ++ [(.read "f.h5" "/x" PredType.STD_I64LE, none)]⟩)) :=
  have hd := matching_class_overflows_buffer Hdf5.library littleHost (LoadH5.mk "/x" "f.h5")
    (World.start doubleDisk) doubleDisk doubleDisk doubleDisk
    ⟨1, 8, 0, "Little endian byte ordering (0)", 1⟩ [0, 0, 0, 0, 0, 0, 240, 63] rfl rfl
  have hl := matching_class_overflows_buffer Hdf5.library littleHost (LoadH5.mk "/x" "f.h5")
    (World.start longDisk) longDisk longDisk longDisk
    ⟨0, 8, 0, "Little endian byte ordering (0)", 1⟩ [1, 0, 0, 0, 0, 0, 0, 0] rfl rfl
  ⟨⟨(hd.1 (by decide)).1, hd.2.2.2.1 (by decide) rfl rfl⟩,
   ⟨(hl.2.1 (by decide)).1, hl.2.2.2.2 (by decide) rfl rfl⟩⟩


/-- On the reference library an attempt of `writeData<float>` or `writeData<double>` at a
free path of an existing file succeeds, and afterwards the dataset opens with the type it
was created with and reads back the array. -/
theorem writeAttempt_stores (T : CType) (t : PredType)
    (hT : (T = .float ∧ t = PredType.IEEE_F32LE) ∨ (T = .double ∧ t = PredType.IEEE_F64LE))
    (self : WriteH5) (a : List Nat) (npts : Nat) (w : World Disk) (img : Image)
    (hd : w.lib self.filename = some img)
    (hfree : img.canCreate (pathOf self.varName) = true)
    (hl : a.length = npts * t.size) (hb : ∀ b ∈ a, b < 256) :
    ∃ w1, self.writeAttempt library T a npts w = (.returned (), w1) ∧
      library.H5File self.filename .H5F_ACC_RDONLY w1.lib = (.ok (), w1.lib) ∧
      library.openDataSet self.filename self.varName w1.lib
        = (.ok ⟨t.cls, t.size, t.order, orderText t.order, npts⟩, w1.lib) ∧
      library.read self.filename self.varName t w1.lib = (.ok a, w1.lib) := by
  have ht : t.order = 0 ∧ t.cls = 1 ∧ 0 < t.size := by
    rcases hT with ⟨-, rfl⟩ | ⟨-, rfl⟩ <;> decide
  obtain ⟨d1, d2, hc, hw, hf, ho, hr⟩ := create_write_read t ht.1 ht.2.1 ht.2.2
    self.filename self.varName a npts w.lib img hd hfree hl hb
  have h1 : library.H5File self.filename .H5F_ACC_RDWR w.lib = (.ok (), w.lib) := by
    simp [library, H5File, hd]
  have h2 : ∀ s : Disk, library.DataSpace 1 npts s = (.ok (), s) := fun _ => rfl
  have h3 : library.createDataSet self.filename self.varName t npts w.lib = (.ok (), d1) := hc
  have h4 : library.write self.filename self.varName a t d1 = (.ok (), d2) := hw
  have h5 : ∀ (h : Handle) (s : Disk), library.close h s = (.ok (), s) := fun _ _ => rfl
  refine ⟨⟨d2, w.out, w.err, w.trace ++ [(.H5File self.filename .H5F_ACC_RDWR, none)]
    ++ [(.DataSpace 1 npts, none)] ++ [(.createDataSet self.filename self.varName t npts, none)]
    ++ [(.write self.filename self.varName a t, none)] ++ [(.close .dataset, none)]
    ++ [(.close .dataspace, none)] ++ [(.close .file, none)]⟩, ?_, hf, ho, hr⟩
  unfold WriteH5.writeAttempt Library.doH5File Library.doDataSpace Library.doCreateDataSet
    Library.doWrite Library.doClose
  rw [bind_call_ok _ h1, bind_call_ok _ (h2 _)]
  rcases hT with ⟨rfl, rfl⟩ | ⟨rfl, rfl⟩
  · simp only []
    simp only [bind_apply, call, h3, h4, h5]
  · simp only []
    simp only [bind_apply, call, h3, h4, h5]

/-- On the reference library `writeData<float>` and `writeData<double>` store the array at
a path that can be created, in the file or (when the file is missing) in the file they
create first. -/
theorem writeLoop_stores (T : CType) (t : PredType)
    (hT : (T = .float ∧ t = PredType.IEEE_F32LE) ∨ (T = .double ∧ t = PredType.IEEE_F64LE))
    (self : WriteH5) (a : List Nat) (npts : Nat) (w : World Disk)
    (hfree : ((w.lib self.filename).getD Image.empty).canCreate (pathOf self.varName) = true)
    (hl : a.length = npts * t.size) (hb : ∀ b ∈ a, b < 256) :
    ∃ w1, self.writeLoop library T a npts 0 w = (.returned (), w1) ∧
      library.H5File self.filename .H5F_ACC_RDONLY w1.lib = (.ok (), w1.lib) ∧
      library.openDataSet self.filename self.varName w1.lib
        = (.ok ⟨t.cls, t.size, t.order, orderText t.order, npts⟩, w1.lib) ∧
      library.read self.filename self.varName t w1.lib = (.ok a, w1.lib) := by
  cases hd : w.lib self.filename with
  | some img =>
    rw [hd] at hfree
    obtain ⟨w1, hatt, hrest⟩ := writeAttempt_stores T t hT self a npts w img hd hfree hl hb
    exact ⟨w1, writeLoop_done library self T a npts 0 w w1 _ hatt (by simp), hrest⟩
  | none =>
    rw [hd] at hfree
    have h1 : library.H5File self.filename .H5F_ACC_RDWR w.lib = (.error .FileIException, w.lib) := by
      simp [library, H5File, hd]
    have hatt : self.writeAttempt library T a npts w = (.thrown (.h5 .FileIException),
        ⟨w.lib, w.out, w.err, w.trace ++ [(.H5File self.filename .H5F_ACC_RDWR, some .FileIException)]⟩) := by
      unfold WriteH5.writeAttempt Library.doH5File
      rw [bind_call_error _ h1]
    have hrec : self.recreate library ⟨w.lib, w.out, w.err,
          w.trace ++ [(.H5File self.filename .H5F_ACC_RDWR, some .FileIException)]⟩
        = (.returned (), ⟨w.lib.set self.filename Image.empty, w.out, w.err,
            w.trace ++ [(.H5File self.filename .H5F_ACC_RDWR, some .FileIException)]
              ++ [(.H5File self.filename .H5F_ACC_TRUNC, none)] ++ [(.close .file, none)]⟩) := by
      unfold WriteH5.recreate Library.doH5File Library.doClose
      have h2 : library.H5File self.filename .H5F_ACC_TRUNC w.lib
          = (.ok (), w.lib.set self.filename Image.empty) := rfl
      have h3 : library.close .file (w.lib.set self.filename Image.empty)
          = (.ok (), w.lib.set self.filename Image.empty) := rfl
      simp only [bind_apply, call, h2, h3]
    rw [writeLoop_retry library self T a npts 0 w _ _ hatt hrec (by omega)]
    obtain ⟨w1, hatt2, hrest⟩ := writeAttempt_stores T t hT self a npts
      ⟨w.lib.set self.filename Image.empty, w.out, w.err,
            w.trace ++ [(.H5File self.filename .H5F_ACC_RDWR, some .FileIException)]
              ++ [(.H5File self.filename .H5F_ACC_TRUNC, none)] ++ [(.close .file, none)]⟩
      Image.empty (disk_set_same _ _ _) hfree hl hb
    exact ⟨w1, writeLoop_done library self T a npts (0 + 1) _ w1 _ hatt2 (by simp), hrest⟩

/-! ## C2: round trip for float and double -/

/-- The round trip through the reference library for an element type written and read
with one little-endian floating-point type. -/
theorem round_trip_stored (T : CType) (t : PredType)
    (hT : (T = .float ∧ t = PredType.IEEE_F32LE) ∨ (T = .double ∧ t = PredType.IEEE_F64LE))
    (env : Env) (d : Disk) (self : WriteH5) (v : List Nat) (hlen : v.length < 2147483648)
    (hfree : ((d self.filename).getD Image.empty).canCreate (pathOf self.varName) = true) :
    ∃ w1, self.writeData library env T v (World.start d) = (.returned (), w1) ∧
      library.H5File self.filename .H5F_ACC_RDONLY w1.lib = (.ok (), w1.lib) ∧
      library.openDataSet self.filename self.varName w1.lib
        = (.ok ⟨t.cls, t.size, t.order, orderText t.order, v.length⟩, w1.lib) ∧
      library.read self.filename self.varName t w1.lib
        = (.ok ((v.map (hostBytes env T.sizeof)).flatten), w1.lib) := by
  have hmod : v.length % 4294967296 = v.length := Nat.mod_eq_of_lt (by omega)
  have hsize : T.sizeof = t.size := by
    rcases hT with ⟨rfl, rfl⟩ | ⟨rfl, rfl⟩ <;> rfl
  unfold WriteH5.writeData
  simp only [hmod, List.take_length]
  exact writeLoop_stores T t hT self _ v.length (World.start d) hfree
    (by rw [buffer_length, hsize]) (buffer_lt env _ v)

/-- C2 (amended). On the reference library, for every sequence `v` of fewer than `2 ^ 31`
bit patterns of `float` (resp. `double`) values and every dataset path that can be
created in the file (nothing is at the path and its parent group exists; when the file
does not exist yet, a path directly below the root), `writeData<float>(v)` followed by
`getDatafloat()` (resp. `writeData<double>(v)` followed by `getDatadouble()`) with the
same file and variable name returns `v`, and so does the `getData()` proxy converted to
the vector type. -/
theorem float_double_round_trip (env : Env) (d : Disk) (self : WriteH5) (v : List Nat)
    (hlen : v.length < 2147483648)
    (hfree : ((d self.filename).getD Image.empty).canCreate (pathOf self.varName) = true) :
    ((∀ x ∈ v, x < 4294967296) →
      ((self.writeData library env .float v >>= fun _ =>
        (LoadH5.mk self.varName self.filename).getDatafloat library env)
          (World.start d)).1 = .returned v ∧
      ((self.writeData library env .float v >>= fun _ =>
        (LoadH5.mk self.varName self.filename).getData.toVectorFloat library env)
          (World.start d)).1 = .returned v) ∧
    ((∀ x ∈ v, x < 18446744073709551616) →
      ((self.writeData library env .double v >>= fun _ =>
        (LoadH5.mk self.varName self.filename).getDatadouble library env)
          (World.start d)).1 = .returned v ∧
      ((self.writeData library env .double v >>= fun _ =>
        (LoadH5.mk self.varName self.filename).getData.toVectorDouble library env)
          (World.start d)).1 = .returned v) := by
  have hn : (0 : Int) ≤ (v.length : Int) ∧ (v.length : Int) < 2147483648 :=
    ⟨Int.natCast_nonneg _, by omega⟩
  have hclose : ∀ (h : Handle) (s : Disk), (library.close h s).1 = .ok () := fun _ _ => rfl
  constructor
  · intro hv
    obtain ⟨w1, hw, hf, ho, hr⟩ := round_trip_stored .float PredType.IEEE_F32LE
      (Or.inl ⟨rfl, rfl⟩) env d self v hlen hfree
    have key : ((self.writeData library env .float v >>= fun _ =>
        (LoadH5.mk self.varName self.filename).getDatafloat library env)
          (World.start d)).1 = .returned v := by
      rw [bind_apply, hw]
      simp only
      rw [getDatafloat_F32LE library env (LoadH5.mk self.varName self.filename) w1 w1.lib w1.lib
        w1.lib (orderText 0) v.length _ hf ho hr hclose hn
        (by rw [buffer_length]; simp [CType.sizeof, Nat.mul_comm])]
      simp only [Int.toNat_ofNat]
      exact congrArg Res.returned (elements_buffer env 4 v (by simpa using hv))
    exact ⟨key, key⟩
  · intro hv
    obtain ⟨w1, hw, hf, ho, hr⟩ := round_trip_stored .double PredType.IEEE_F64LE
      (Or.inr ⟨rfl, rfl⟩) env d self v hlen hfree
    have key : ((self.writeData library env .double v >>= fun _ =>
        (LoadH5.mk self.varName self.filename).getDatadouble library env)
          (World.start d)).1 = .returned v := by
      rw [bind_apply, hw]
      simp only
      rw [getDatadouble_F64LE library env (LoadH5.mk self.varName self.filename) w1 w1.lib w1.lib
        w1.lib (orderText 0) v.length _ hf ho hr hclose hn
        (by rw [buffer_length]; simp [CType.sizeof, Nat.mul_comm])]
      simp only [Int.toNat_ofNat]
      exact congrArg Res.returned (elements_buffer env 8 v (by simpa using hv))
    exact ⟨key, key⟩

/-- C2 at concrete inputs: two floats written to `/x` of a file that does not exist yet
(it is created on demand), and two doubles written to `/x` of an empty file. -/
theorem float_double_round_trip_witness :
    (((WriteH5.mk "/x" "f.h5").writeData library littleHost .float [1065353216, 3212836864] >>=
        fun _ => (LoadH5.mk "/x" "f.h5").getDatafloat library littleHost)
          (World.start Disk.none)).1 = .returned [1065353216, 3212836864] ∧
    (((WriteH5.mk "/x" "f.h5").writeData library bigHost .double
          [4607182418800017408, 13830554455654793216] >>=
        fun _ => (LoadH5.mk "/x" "f.h5").getData.toVectorDouble library bigHost)
          (World.start emptyFileDisk)).1
      = .returned [4607182418800017408, 13830554455654793216] :=
  ⟨((float_double_round_trip littleHost Disk.none (WriteH5.mk "/x" "f.h5")
      [1065353216, 3212836864] (by decide) rfl).1 (by decide)).1,
   ((float_double_round_trip bigHost emptyFileDisk (WriteH5.mk "/x" "f.h5")
      [4607182418800017408, 13830554455654793216] (by decide) rfl).2 (by decide)).2⟩

/-- C2 as stated fails for a path whose parent group does not exist: in the file `f.h5`
holding only the root group, nothing is at `/g/x`, yet `writeData<float>` of the value
`1.0f` to `/g/x` writes nothing (`createDataSet` fails in each of the four attempts), and
`getDatafloat()` returns the empty sequence.  It also fails for a sequence whose length
does not fit `uint npts`: of `2 ^ 32` floats written to `/x` none is stored, and
`getDatafloat()`, run in the world `writeData` leaves, returns the empty sequence. -/
theorem float_round_trip_counterexample :
    ((emptyFileDisk "f.h5").map (fun img => img (pathOf "/g/x")) = some none ∧
      (((WriteH5.mk "/g/x" "f.h5").writeData library littleHost .float [1065353216] >>=
          fun _ => (LoadH5.mk "/g/x" "f.h5").getDatafloat library littleHost)
            (World.start emptyFileDisk)).1 = .returned [] ∧
      (((WriteH5.mk "/g/x" "f.h5").writeData library littleHost .float [1065353216] >>=
          fun _ => (LoadH5.mk "/g/x" "f.h5").getDatafloat library littleHost)
            (World.start emptyFileDisk)).1 ≠ .returned [1065353216]) ∧
    (((LoadH5.mk "/x" "f.h5").getDatafloat library littleHost
        ((WriteH5.mk "/x" "f.h5").writeData library littleHost .float
          (List.replicate 4294967296 0) (World.start Disk.none)).2).1 = .returned [] ∧
      ((LoadH5.mk "/x" "f.h5").getDatafloat library littleHost
        ((WriteH5.mk "/x" "f.h5").writeData library littleHost .float
          (List.replicate 4294967296 0) (World.start Disk.none)).2).1
        ≠ .returned (List.replicate 4294967296 0)) := by
  have h : (((WriteH5.mk "/g/x" "f.h5").writeData library littleHost .float [1065353216] >>=
        fun _ => (LoadH5.mk "/g/x" "f.h5").getDatafloat library littleHost)
          (World.start emptyFileDisk)).1 = .returned [] := by
    rw [bind_apply, writeData_eq_fuel]
    decide!
  have hlong : ((LoadH5.mk "/x" "f.h5").getDatafloat library littleHost
        ((WriteH5.mk "/x" "f.h5").writeData library littleHost .float
          (List.replicate 4294967296 0) (World.start Disk.none)).2).1 = .returned [] := by
    have h0 : (List.replicate 4294967296 0 : List Nat).length % 4294967296 = 0 := by
      rw [List.length_replicate]
    rw [writeData_eq_fuel, h0, List.take_zero]
    decide!
  refine ⟨⟨rfl, h, ?_⟩, hlong, ?_⟩
  · rw [h]
    simp
  · intro hc
    rw [hlong] at hc
    have hl : ([] : List Nat).length = (List.replicate 4294967296 0 : List Nat).length :=
      congrArg (fun r => match r with
        | Res.returned (v : List Nat) => v.length
        | _ => 0) hc
    rw [List.length_replicate, List.length_nil] at hl
    omega

/-! ## C1, C3, C6: where the writer departs from the claims -/

/-- C1 fails on the code: `writeData<int>` creates the dataset as `STD_I32LE` but passes
`STD_I32BE` as the type of its array of native `int`s, so the library swaps the bytes of
every element on the way to the file; `getDataint` reads them back with `STD_I32LE`.  The
round trip of the sequence `1` returns `0x01000000 = 16777216`, on a little-endian and on
a big-endian host. -/
theorem int_round_trip_swaps_bytes :
    (((WriteH5.mk "/x" "f.h5").writeData library littleHost .int [ofInt32 1] >>=
        fun _ => (LoadH5.mk "/x" "f.h5").getDataint library littleHost)
          (World.start Disk.none)).1 = .returned [16777216] ∧
    (((WriteH5.mk "/x" "f.h5").writeData library bigHost .int [ofInt32 1] >>=
        fun _ => (LoadH5.mk "/x" "f.h5").getDataint library bigHost)
          (World.start Disk.none)).1 = .returned [16777216] := by
  constructor
  · rw [bind_apply, writeData_eq_fuel]
    decide!
  · rw [bind_apply, writeData_eq_fuel]
    decide!

/-- C3 fails on the code: writing three doubles to the existing dataset `/x` (two
`STD_I32LE` elements) of `twoDisk` makes `createDataSet` throw `FileIException`, the
handler meant for a missing file recreates the file, and the second attempt succeeds:
afterwards `/x` is an `IEEE_F64LE` dataset of three elements and the dataset `/y` is
gone. -/
theorem writeData_replaces_existing_dataset :
    (twoDisk "f.h5").map (fun img => (img (pathOf "/x"), img (pathOf "/y")))
      = some (some (.dataset ⟨PredType.STD_I32LE, 2, [1, 0, 0, 0, 2, 0, 0, 0]⟩),
          some (.dataset ⟨PredType.STD_I32LE, 1, [7, 0, 0, 0]⟩)) ∧
    ((WriteH5.mk "/x" "f.h5").writeData library littleHost .double
        [4607182418800017408, 4611686018427387904, 4613937818241073152]
        (World.start twoDisk)).1 = .returned () ∧
    (((WriteH5.mk "/x" "f.h5").writeData library littleHost .double
        [4607182418800017408, 4611686018427387904, 4613937818241073152]
        (World.start twoDisk)).2.lib "f.h5").map
          (fun img => (img (pathOf "/x"), img (pathOf "/y")))
      = some (some (.dataset ⟨PredType.IEEE_F64LE, 3,
          [0, 0, 0, 0, 0, 0, 240, 63, 0, 0, 0, 0, 0, 0, 0, 64, 0, 0, 0, 0, 0, 0, 8, 64]⟩),
          none) := by
  refine ⟨by decide!, ?_, ?_⟩
  · rw [writeData_eq_fuel]
    decide!
  · rw [writeData_eq_fuel]
    decide!

/-- C6 fails on the code: with the group `/a` in the file, `createGroup("a/b")` requests
`/a`, the library refuses (the group exists), and the exception leaves the loop: the
error is printed, the function returns, `/a` is unchanged, and `/a/b` was neither
requested nor created. -/
theorem createGroup_stops_at_existing_group :
    ((WriteH5.mk "/x" "f.h5").createGroup library "a/b" (World.start groupDisk)).1
      = .returned () ∧
    ((WriteH5.mk "/x" "f.h5").createGroup library "a/b" (World.start groupDisk)).2.err
      = [.FileIException] ∧
    groupRequests ((WriteH5.mk "/x" "f.h5").createGroup library "a/b"
      (World.start groupDisk)).2.trace = ["/a"] ∧
    (((WriteH5.mk "/x" "f.h5").createGroup library "a/b" (World.start groupDisk)).2.lib
        "f.h5").map (fun img => (img (pathOf "/a"), img (pathOf "/a/b")))
      = some (some .group, none) := by
  refine ⟨by decide!, by decide!, by decide!, by decide!⟩

end H5Easy
